import Mathlib

/-!
Shallow embedding of the `Frame` class from `UDFLoader/src/frame.cpp` and of
the UDF worker chain from `libs/UDFLoader/src/udf_manager.cpp` of the
open-edge-insights/video-common repository, together with proofs checking the
natural-language specification against it.

Conventions of the embedding:
* C++ pointers to pixel buffers are modelled as `List Nat` (the byte contents
  the pointer designates); opaque owner pointers (`m_frame`) are modelled by
  the `FramePtr` tag type.
* The external msgbus envelope library (out of scope of the repository, used
  through its interface) is modelled from its documented contract: a keyed
  store of typed elements plus a distinguished unkeyed blob slot which is
  either a single blob or an array of blobs.
* C++ exceptions thrown by `Frame` member functions are modelled as an
  `Option String` error channel carrying the thrown message; since a C++
  throw leaves the partially-mutated object alive at the caller, mutating
  members return the frame state as of the throw together with the message.
* Heap-allocation failure (`msgbus_msg_envelope_new_* == NULL`, `malloc ==
  NULL`) is modelled by an injection script `Alloc := List Bool`: each
  allocation consumes the head of the script and fails when it is `false`;
  the empty script means every allocation succeeds.
* The external image codec (OpenCV `imencode`/`imdecode`) is passed in as a
  function parameter.
-/

namespace VideoCommon

/-- Encoding type enum `EncodeType` from the UDFLoader headers. -/
inductive EncodeType where
  | NONE
  | JPEG
  | PNG
deriving DecidableEq, Repr

/-- Tags identifying the C free-function pointers that can be stored in a
frame (`test_frame_free`-style user releasers, `free_decoded`,
`free_encoded`, `Frame::msg_free_frame`).  `Option FreeFn` models a possibly
NULL function pointer. -/
inductive FreeFn where
  | user (tag : Nat)
  | free_decoded
  | free_encoded
  | msg_free_frame
deriving DecidableEq, Repr

/-- Tag for the opaque `void* m_frame` owner pointer.  `vecPtr` records that
the pointer designates a `std::vector<uchar>` produced by `encode_frame`
(whose length the code later reads back); `matPtr` a decoded `cv::Mat`;
`user` a caller-supplied wrapper object; `null` the NULL pointer. -/
inductive FramePtr where
  | null
  | user (tag : Nat)
  | matPtr (pix : List Nat)
  | vecPtr (bytes : List Nat)
deriving DecidableEq, Repr

/-- Value of the C++ expression `((std::vector<uchar>*) frame)->size()`.
When the pointer actually designates a vector this is its length; otherwise
the C++ code reads a foreign object through a wrong-typed pointer (undefined
behaviour) and the model returns the unspecified value 0.  No verified claim
observes the unspecified case. -/
def vectorSizeOf : FramePtr → Int
  | .vecPtr bytes => bytes.length
  | _ => 0

/-- Typed element stored under a string key in a msg envelope (the blob slot
is kept separately in `MsgEnvelope.blob`). -/
inductive EnvElem where
  | int (i : Int)
  | str (s : String)
  | arr (elems : List EnvElem)
  | obj (kvs : List (String × EnvElem))

/-- The unkeyed blob slot of an envelope: a single blob or an array of blobs
(the msgbus library only ever stores these two shapes there). -/
inductive BlobSlot where
  | single (bytes : List Nat)
  | many (blobs : List (List Nat))

/-- Model of `msg_envelope_t`: keyed elements plus the distinguished unkeyed
blob slot. -/
structure MsgEnvelope where
  kv : List (String × EnvElem)
  blob : Option BlobSlot

/-- Allocation-failure injection script: each heap allocation consumes the
head; an empty script makes every allocation succeed. -/
abbrev Alloc := List Bool

/-- One allocation attempt against the script. -/
def allocStep : Alloc → Bool × Alloc
  | [] => (true, [])
  | b :: rest => (b, rest)

/-- `msgbus_msg_envelope_get(env, key, &elem)` for a non-NULL key. -/
def envGet (env : MsgEnvelope) (key : String) : Option EnvElem :=
  (env.kv.find? (fun p => p.1 == key)).map Prod.snd

/-- `msgbus_msg_envelope_get(env, NULL, &blob)`: fetch the blob slot. -/
def envGetBlob (env : MsgEnvelope) : Option BlobSlot := env.blob

/-- `msgbus_msg_envelope_put(env, key, elem)` for a non-NULL key.  The call
fails when the key already exists (`MSG_ERR_ELEM_ALREADY_EXISTS`) or when the
library cannot allocate internally; the latter is driven by the script. -/
def envPut (env : MsgEnvelope) (key : String) (elem : EnvElem) (al : Alloc) :
    Bool × MsgEnvelope × Alloc :=
  let (ok, al') := allocStep al
  if ok && (envGet env key).isNone then
    (true, { env with kv := env.kv ++ [(key, elem)] }, al')
  else
    (false, env, al')

/-- `msgbus_msg_envelope_remove(env, key)`: fails when the key is absent. -/
def envRemove (env : MsgEnvelope) (key : String) : Bool × MsgEnvelope :=
  if (envGet env key).isSome then
    (true, { env with kv := env.kv.filter (fun p => !(p.1 == key)) })
  else
    (false, env)

/-- Attaching one more blob to a blob slot: the first blob occupies the
slot; further blobs turn the slot into an array of blobs in arrival
order. -/
def slotPut : Option BlobSlot → List Nat → Option BlobSlot
  | none, bytes => some (.single bytes)
  | some (.single b), bytes => some (.many [b, bytes])
  | some (.many bs), bytes => some (.many (bs ++ [bytes]))

/-- `msgbus_msg_envelope_put(env, NULL, blob_elem)`: attach a blob. -/
def envPutBlob (env : MsgEnvelope) (bytes : List Nat) : MsgEnvelope :=
  { env with blob := slotPut env.blob bytes }

/-- `msgbus_msg_envelope_elem_array_get_at(arr, idx)` on a `.arr` element;
NULL for an out-of-range (including negative) index. -/
def arrayGetAt (elems : List EnvElem) (idx : Int) : Option EnvElem :=
  if idx < 0 then none else elems.get? idx.toNat

/-- `msgbus_msg_envelope_elem_object_get(obj, key)` on a `.obj` element. -/
def objGet (kvs : List (String × EnvElem)) (key : String) : Option EnvElem :=
  (kvs.find? (fun p => p.1 == key)).map Prod.snd

/-- `msgbus_msg_envelope_elem_object_put(obj, key, elem)`; fails on a
duplicate key or injected allocation failure. -/
def objPut (kvs : List (String × EnvElem)) (key : String) (elem : EnvElem)
    (al : Alloc) : Bool × List (String × EnvElem) × Alloc :=
  let (ok, al') := allocStep al
  if ok && (objGet kvs key).isNone then
    (true, kvs ++ [(key, elem)], al')
  else
    (false, kvs, al')

/-- `msgbus_msg_envelope_elem_object_remove(obj, key)`. -/
def objRemove (kvs : List (String × EnvElem)) (key : String) :
    Bool × List (String × EnvElem) :=
  if (objGet kvs key).isSome then
    (true, kvs.filter (fun p => !(p.1 == key)))
  else
    (false, kvs)

/-- `msgbus_msg_envelope_new_blob(data, len)`: a blob element viewing `len`
bytes of the buffer.  Faithful when `len` is at most the buffer length (the
C code would otherwise over-read the heap). -/
def newBlobBytes (data : List Nat) (len : Int) : List Nat :=
  data.take len.toNat

/-- State of a `Frame` object (fields of the C++ class that the verified
claims observe).  `m_msg_present` models whether `m_msg` is non-NULL; when it
is, the C++ `m_msg` and `m_meta_data` pointers alias the same envelope, which
the model keeps once in `m_meta_data`. -/
structure Frame where
  m_frame : FramePtr
  m_free_frame : Option FreeFn
  m_data : List (List Nat)
  m_meta_data : MsgEnvelope
  m_msg_present : Bool
  m_width : Int
  m_height : Int
  m_channels : Int
  m_num_frames : Int
  m_serialized : Bool
  m_encode_type : EncodeType
  m_encode_level : Int

/-- `verify_encoding_level` from frame.cpp. -/
def verify_encoding_level (encode_type : EncodeType) (encode_level : Int) : Bool :=
  match encode_type with
  | .JPEG => encode_level ≥ 0 && encode_level ≤ 100
  | .PNG => encode_level ≥ 0 && encode_level ≤ 9
  | .NONE => true

/-- Local helper `fetch_multi_frame_parameter(meta_data, index, key)` of
frame.cpp: fetch `additional_frames[index-1][key]`, throwing on every
missing piece. -/
def fetch_multi_frame_parameter (meta_data : MsgEnvelope) (index : Int)
    (key : String) : Except String EnvElem :=
  match envGet meta_data "additional_frames" with
  | none => .error "Failed to fetch additional_frames object"
  | some additional_frames_arr =>
    match additional_frames_arr with
    | .arr elems =>
      match arrayGetAt elems (index - 1) with
      | none => .error "Unable to fetch meta-data"
      | some o =>
        match o with
        | .obj kvs =>
          match objGet kvs key with
          | none => .error "Unable to fetch requested element from metadata"
          | some key_obj => .ok key_obj
        | _ =>
          -- The C code calls object_get on the element unconditionally; on a
          -- non-object it returns NULL, hence the same throw.
          .error "Unable to fetch requested element from metadata"
    | _ => .error "additional_frames type not an array"

/-- `Frame::get_width(int index)`. -/
def Frame.get_width (f : Frame) (index : Int) : Except String Int :=
  if index = 0 then .ok f.m_width
  else
    match fetch_multi_frame_parameter f.m_meta_data index "width" with
    | .error e => .error e
    | .ok w =>
      match w with
      | .int i => .ok i
      | _ => .error "width not an integer"

/-- `Frame::get_height(int index)`. -/
def Frame.get_height (f : Frame) (index : Int) : Except String Int :=
  if index = 0 then .ok f.m_height
  else
    match fetch_multi_frame_parameter f.m_meta_data index "height" with
    | .error e => .error e
    | .ok h =>
      match h with
      | .int i => .ok i
      | _ => .error "height not an integer"

/-- `Frame::get_channels(int index)`. -/
def Frame.get_channels (f : Frame) (index : Int) : Except String Int :=
  if index = 0 then .ok f.m_channels
  else
    match fetch_multi_frame_parameter f.m_meta_data index "channels" with
    | .error e => .error e
    | .ok c =>
      match c with
      | .int i => .ok i
      | _ => .error "channels not an integer"

/-- `Frame::get_encode_type(int index)`. -/
def Frame.get_encode_type (f : Frame) (index : Int) : Except String EncodeType :=
  if index = 0 then .ok f.m_encode_type
  else
    match fetch_multi_frame_parameter f.m_meta_data index "encoding_type" with
    | .error e => .error e
    | .ok e =>
      match e with
      | .str s =>
        if s = "jpeg" then .ok .JPEG
        else if s = "png" then .ok .PNG
        else if s = "none" then .ok .NONE
        else .error "Encoding type is not supported"
      | _ => .error "encoding_type not a string"

/-- `Frame::get_encode_level(int index)`. -/
def Frame.get_encode_level (f : Frame) (index : Int) : Except String Int :=
  if index = 0 then .ok f.m_encode_level
  else
    match fetch_multi_frame_parameter f.m_meta_data index "encoding_level" with
    | .error e => .error e
    | .ok l =>
      match l with
      | .int i => .ok i
      | _ => .error "encoding_level not an integer"

/-- `Frame::get_data(int index)`: NULL (`none`) once the frame has been
serialized; otherwise the unchecked array read `m_data[index]`.  The C code
performs no bounds check here, so an out-of-range index reads whatever the
heap holds past the array; the model returns the junk value `[]` there. -/
def Frame.get_data (f : Frame) (index : Int) : Option (List Nat) :=
  if f.m_serialized then none
  else some (if h : 0 ≤ index ∧ index.toNat < f.m_data.length then
              f.m_data.get ⟨index.toNat, h.2⟩
             else [])

/-- `Frame::get_number_of_frames()`. -/
def Frame.get_number_of_frames (f : Frame) : Int := f.m_num_frames

/-- `Frame::get_meta_data()`: NULL (`none`) once serialized. -/
def Frame.get_meta_data (f : Frame) : Option MsgEnvelope :=
  if f.m_serialized then none
  else some f.m_meta_data

/-- Envelope-population steps of the pixel-data constructor (frame.cpp lines
61-131): allocate a fresh envelope and put the root descriptor keys, with
each allocation and put checked as in the source. -/
def mkFrameEnv (width height channels : Int) (encode_type : EncodeType)
    (encode_level : Int) (al : Alloc) : Except String (MsgEnvelope × Alloc) :=
  -- msgbus_msg_envelope_new(CT_JSON)
  let (ok, al) := allocStep al
  if !ok then .error "Failed to initialize meta data envelope" else
  let env : MsgEnvelope := { kv := [], blob := none }
  -- width
  let (ok, al) := allocStep al
  if !ok then .error "Failed to initialize width meta-data" else
  let (ok, env, al) := envPut env "width" (.int width) al
  if !ok then .error "Failed to put width meta-data" else
  -- height
  let (ok, al) := allocStep al
  if !ok then .error "Failed to initialize height meta-data" else
  let (ok, env, al) := envPut env "height" (.int height) al
  if !ok then .error "Failed to put height meta-data" else
  -- channels
  let (ok, al) := allocStep al
  if !ok then .error "Failed to initialize channels meta-data" else
  let (ok, env, al) := envPut env "channels" (.int channels) al
  if !ok then .error "Failed to put channels meta-data" else
  -- encoding keys, only when the type is not NONE
  if encode_type = .NONE then .ok (env, al)
  else
    let (ok, al) := allocStep al
    if !ok then .error "Failed initialize encoding type meta-data" else
    let enc_str := if encode_type = .JPEG then "jpeg" else "png"
    let (ok, al) := allocStep al
    if !ok then .error "Failed to initialize encoding level meta-data" else
    let (ok, env, al) := envPut env "encoding_type" (.str enc_str) al
    if !ok then .error "Failed to put encoding type in object" else
    let (ok, env, al) := envPut env "encoding_level" (.int encode_level) al
    if !ok then .error "Failed to put encoding level in object" else
    .ok (env, al)

/-- The pixel-data constructor `Frame::Frame(frame, width, height, channels,
data, free_frame, num_frames, encode_type, encode_level)` (frame.cpp lines
45-132): the NULL-releaser check, the encoding-level check, then the
envelope population of `mkFrameEnv`.  A thrown exception aborts
construction, so the result is an `Except`.  `data` carries the byte
contents designated by each entry of the C `void** data` array. -/
def Frame.mk_frame (frame : FramePtr) (width height channels : Int)
    (data : List (List Nat)) (free_frame : Option FreeFn) (num_frames : Int)
    (encode_type : EncodeType) (encode_level : Int) (al : Alloc) :
    Except String (Frame × Alloc) :=
  if free_frame = none then
    .error "The free_frame() method cannot be NULL"
  else if !verify_encoding_level encode_type encode_level then
    .error "Encode level invalid for the encoding type"
  else
    match mkFrameEnv width height channels encode_type encode_level al with
    | .error e => .error e
    | .ok (env, al') =>
      .ok ({ m_frame := frame, m_free_frame := free_frame, m_data := data,
             m_meta_data := env, m_msg_present := false, m_width := width,
             m_height := height, m_channels := channels,
             m_num_frames := num_frames, m_serialized := false,
             m_encode_type := encode_type, m_encode_level := encode_level },
           al')

/-- Result of a mutating `Frame` member: the frame state at return (for a
C++ throw this is the state as of the throw, since the caller still holds
the object), the remaining allocation script, and the thrown message when
the call failed. -/
structure MutResult where
  frame : Frame
  alloc : Alloc
  err : Option String

/-- Replace the element stored under `key`, modelling in-place mutation of a
child reached through a pointer. -/
def kvSetKey (env : MsgEnvelope) (key : String) (elem : EnvElem) : MsgEnvelope :=
  { env with kv := env.kv.map (fun p => if p.1 == key then (p.1, elem) else p) }

/-- A blob put whose return code the caller checks; the library may fail to
allocate internally (script-driven). -/
def envPutBlobChecked (env : MsgEnvelope) (bytes : List Nat) (al : Alloc) :
    Bool × MsgEnvelope × Alloc :=
  let (ok, al') := allocStep al
  if ok then (true, envPutBlob env bytes, al') else (false, env, al')

/-- The "release old data" stage of `Frame::set_data` (frame.cpp lines
584-659): fresh frames swap the top-level releaser; a deserialized frame
rebuilds the blob in its envelope in place. -/
def setDataRelease (f : Frame) (frame : FramePtr)
    (width height channels : Int) (data : List Nat)
    (free_frame : Option FreeFn) (index : Int) (al : Alloc) : MutResult :=
  if !f.m_msg_present then
    ⟨{ f with m_free_frame := free_frame }, al, none⟩
  else
    let len : Int :=
      if index = 0 && f.m_encode_type != .NONE then vectorSizeOf frame
      else width * height * channels
    match f.m_meta_data.blob with
    | some (.single _) =>
      let (ok, al) := allocStep al
      if !ok then
        ⟨f, al, some "Failed to initialize new blob in Frame::set_data()"⟩
      else
        -- destroy the old blob, then re-add the new one
        let env1 := { f.m_meta_data with blob := none }
        let (ok2, env2, al2) :=
          envPutBlobChecked env1 (newBlobBytes data len) al
        if !ok2 then
          ⟨{ f with m_meta_data := env2 }, al2,
           some "Failed to re-add new blob data to received msg envelope"⟩
        else
          ⟨{ f with m_meta_data := env2 }, al2, none⟩
    | some (.many bs) =>
      let (ok, al) := allocStep al
      if !ok then
        ⟨f, al, some "Failed to initialize new blob in Frame::set_data()"⟩
      else
        -- remove the blob at `index`, then re-add the new one at the end
        if index < 0 || (bs.length : Int) ≤ index then
          ⟨f, al,
           some "Failed to remove existing blob data from msg envelope"⟩
        else
          let env1 := { f.m_meta_data with
                        blob := some (.many (bs.eraseIdx index.toNat)) }
          let (ok2, env2, al2) :=
            envPutBlobChecked env1 (newBlobBytes data len) al
          if !ok2 then
            ⟨{ f with m_meta_data := env2 }, al2,
             some "Failed to re-add new blob data to received msg envelope"⟩
          else
            ⟨{ f with m_meta_data := env2 }, al2, none⟩
    | none =>
      -- A deserialized frame always carries a blob; the C code would
      -- dereference a NULL blob pointer here.  Unreachable for the frames
      -- the claims range over.
      ⟨f, al, none⟩

/-- The root-descriptor update stage of `Frame::set_data` for index 0
(frame.cpp lines 692-726). -/
def setDataRootDesc (f : Frame) (width height channels : Int) (al : Alloc) :
    MutResult :=
  let f := { f with m_width := width, m_height := height,
                    m_channels := channels }
  -- remove the old root descriptor (return codes ignored by the code)
  let env := (envRemove f.m_meta_data "width").2
  let env := (envRemove env "height").2
  let env := (envRemove env "channels").2
  let (ok, env, al) := envPut env "width" (.int width) al
  if !ok then
    ⟨{ f with m_meta_data := env }, al, some "Failed to put width meta-data"⟩
  else
  let (ok, env, al) := envPut env "height" (.int height) al
  if !ok then
    ⟨{ f with m_meta_data := env }, al, some "Failed to put height meta-data"⟩
  else
  let (ok, env, al) := envPut env "channels" (.int channels) al
  if !ok then
    ⟨{ f with m_meta_data := env }, al,
     some "Failed to put channels meta-data"⟩
  else
    ⟨{ f with m_meta_data := env }, al, none⟩

/-- The `additional_frames[index-1]` descriptor update stage of
`Frame::set_data` for index > 0 (frame.cpp lines 727-838).  The object is
mutated in place inside the array; the model writes each mutation back
through the envelope. -/
def setDataAfDesc (f : Frame) (width height channels : Int) (index : Int)
    (al : Alloc) : MutResult :=
  match envGet f.m_meta_data "additional_frames" with
  | none => ⟨f, al, some "Failed to fetch additional_frames object"⟩
  | some afe =>
    match afe with
    | .arr elems =>
      match arrayGetAt elems (index - 1) with
      | none => ⟨f, al, some "Unable to fetch meta-data"⟩
      | some o =>
        match o with
        | .obj kvs =>
          let wb := fun (kvs' : List (String × EnvElem)) =>
            kvSetKey f.m_meta_data "additional_frames"
              (.arr (elems.set (index - 1).toNat (.obj kvs')))
          let (ok, kvs) := objRemove kvs "width"
          if !ok then ⟨f, al, some "Failed to remove width object"⟩ else
          let f1 := { f with m_meta_data := wb kvs }
          let (ok, kvs) := objRemove kvs "height"
          if !ok then
            ⟨f1, al, some "Failed to remove height object"⟩ else
          let f2 := { f with m_meta_data := wb kvs }
          let (ok, kvs) := objRemove kvs "channels"
          if !ok then
            ⟨f2, al, some "Failed to remove channels object"⟩ else
          let f3 := { f with m_meta_data := wb kvs }
          let (ok, al) := allocStep al
          if !ok then ⟨f3, al, some "Unable to fetch meta-data"⟩ else
          let (ok, kvs, al) := objPut kvs "width" (.int width) al
          if !ok then
            ⟨f3, al, some "Unable to put width into meta-data"⟩ else
          let f4 := { f with m_meta_data := wb kvs }
          let (ok, al) := allocStep al
          if !ok then ⟨f4, al, some "Unable to fetch meta-data"⟩ else
          let (ok, kvs, al) := objPut kvs "height" (.int height) al
          if !ok then
            ⟨f4, al, some "Unable to put height into meta-data"⟩ else
          let f5 := { f with m_meta_data := wb kvs }
          let (ok, al) := allocStep al
          if !ok then ⟨f5, al, some "Unable to fetch meta-data"⟩ else
          let (ok, kvs, al) := objPut kvs "channels" (.int channels) al
          if !ok then
            ⟨f5, al, some "Unable to put channels into meta-data"⟩ else
          ⟨{ f with m_meta_data := wb kvs }, al, none⟩
        | _ =>
          -- object_remove on a non-object element returns failure
          ⟨f, al, some "Failed to remove width object"⟩
    | _ => ⟨f, al, some "additional_frames type not an array"⟩

/-- `Frame::set_data(frame, width, height, channels, data, free_frame,
index)` (frame.cpp lines 573-839): the serialized guard, the release stage,
the repointing of `m_frame`/`m_data`, the three descriptor-element
allocations, and the root or `additional_frames` descriptor update. -/
def Frame.set_data (f : Frame) (frame : FramePtr) (width height channels : Int)
    (data : List Nat) (free_frame : Option FreeFn) (index : Int) (al : Alloc) :
    MutResult :=
  if f.m_serialized then
    ⟨f, al, some "Cannot set data after serialization"⟩
  else
    match setDataRelease f frame width height channels data free_frame
        index al with
    | ⟨f1, al1, some e⟩ => ⟨f1, al1, some e⟩
    | ⟨f1, al1, none⟩ =>
      -- Repoint all internal data structures
      let newData :=
        if index < 0 then f1.m_data else f1.m_data.set index.toNat data
      let f2 := { f1 with m_frame := frame, m_data := newData }
      let (ok, al2) := allocStep al1
      if !ok then ⟨f2, al2, some "Failed to initialize width meta-data"⟩ else
      let (ok, al3) := allocStep al2
      if !ok then ⟨f2, al3, some "Failed to initialize height meta-data"⟩ else
      let (ok, al4) := allocStep al3
      if !ok then
        ⟨f2, al4, some "Failed to initialize channels meta-data"⟩ else
      if index = 0 then setDataRootDesc f2 width height channels al4
      else setDataAfDesc f2 width height channels index al4

/-- `Frame::set_encoding(encode_type, encode_level)` (frame.cpp lines
841-891). -/
def Frame.set_encoding (f : Frame) (encode_type : EncodeType)
    (encode_level : Int) (al : Alloc) : MutResult :=
  if !verify_encoding_level encode_type encode_level then
    ⟨f, al, some "Invalid encoding level for the encoding type"⟩
  else
    -- fields are assigned before any envelope work
    let f := { f with m_encode_type := encode_type,
                      m_encode_level := encode_level }
    let remType : Bool × MsgEnvelope :=
      if (envGet f.m_meta_data "encoding_type").isSome then
        envRemove f.m_meta_data "encoding_type"
      else (true, f.m_meta_data)
    if !remType.1 then
      ⟨f, al, some "Failed to remove \"encoding_type\" from the meta-data"⟩
    else
    let f := { f with m_meta_data := remType.2 }
    let remLvl : Bool × MsgEnvelope :=
      if (envGet f.m_meta_data "encoding_level").isSome then
        envRemove f.m_meta_data "encoding_level"
      else (true, f.m_meta_data)
    if !remLvl.1 then
      ⟨f, al, some "Failed to remove \"encoding_level\" from the meta-data"⟩
    else
    let f := { f with m_meta_data := remLvl.2 }
    if encode_type = .NONE then ⟨f, al, none⟩
    else
      let (ok, al) := allocStep al
      if !ok then
        ⟨f, al, some "Failed initialize encoding type meta-data"⟩ else
      let enc_str := if encode_type = .JPEG then "jpeg" else "png"
      let (ok, al) := allocStep al
      if !ok then
        ⟨f, al, some "Failed to initialize encoding level meta-data"⟩ else
      let (ok, env, al) := envPut f.m_meta_data "encoding_type" (.str enc_str) al
      if !ok then
        ⟨f, al, some "Failed to put encoding type in object"⟩ else
      let f := { f with m_meta_data := env }
      let (ok, env, al) := envPut f.m_meta_data "encoding_level"
                             (.int encode_level) al
      if !ok then
        ⟨f, al, some "Failed to put encoding level in object"⟩ else
      ⟨{ f with m_meta_data := env }, al, none⟩

/-- The external codec's encode operation (`cv::imencode`), abstracted:
arguments are encode type, level, rows (`m_height`), cols (`m_width`),
channels, pixel bytes; `none` models an encode failure. -/
abbrev Imencode :=
  EncodeType → Int → Int → Int → Int → List Nat → Option (List Nat)

/-- The external codec's decode operation (`cv::imdecode`), abstracted:
returns `(cols, rows, channels, pixels)` of the decoded image, or `none`
when the decoded matrix is empty. -/
abbrev Imdecode := List Nat → Option (Int × Int × Int × List Nat)

/-- Loop body of `Frame::encode_frame` (frame.cpp lines 901-992), iterating
over the plane indices.  A plane whose encode type is NONE makes the whole
function `return` at once. -/
def encodeLoop (imenc : Imencode) (f : Frame) (idxs : List Nat) (al : Alloc) :
    MutResult :=
  match idxs with
  | [] => ⟨f, al, none⟩
  | i :: rest =>
    if i = 0 then
      match f.m_encode_type with
      | .NONE => ⟨f, al, none⟩
      | t =>
        match imenc t f.m_encode_level f.m_height f.m_width f.m_channels
                (f.m_data.getD 0 []) with
        | none => ⟨f, al, some "Failed to encode the frame"⟩
        | some enc =>
          let freeFn : Option FreeFn :=
            if f.m_num_frames > 1 then none else some .free_encoded
          let r := f.set_data (.vecPtr enc) f.m_width f.m_height f.m_channels
                     enc freeFn 0 al
          match r.err with
          | some e => ⟨r.frame, r.alloc, some e⟩
          | none => encodeLoop imenc r.frame rest r.alloc
    else
      match f.get_encode_type i with
      | .error e => ⟨f, al, some e⟩
      | .ok .NONE => ⟨f, al, none⟩
      | .ok t =>
        match f.get_encode_level i with
        | .error e => ⟨f, al, some e⟩
        | .ok lvl =>
          match imenc t lvl f.m_height f.m_width f.m_channels
                  (f.m_data.getD i []) with
          | none => ⟨f, al, some "Failed to encode the frame"⟩
          | some enc =>
            let freeFn : Option FreeFn :=
              if (i : Int) = f.m_num_frames - 1 then some .free_encoded
              else none
            let r := f.set_data (.vecPtr enc) f.m_width f.m_height
                       f.m_channels enc freeFn i al
            match r.err with
            | some e => ⟨r.frame, r.alloc, some e⟩
            | none => encodeLoop imenc r.frame rest r.alloc

/-- `Frame::encode_frame()`. -/
def Frame.encode_frame (f : Frame) (imenc : Imencode) (al : Alloc) :
    MutResult :=
  encodeLoop imenc f (List.range f.m_num_frames.toNat) al

/-- Observable steps of `Frame::serialize`, used to state ordering claims:
the call into `encode_frame`, the `m_serialized.store(true)`, each blob
allocation and each blob put on the fresh-frame path, and each shared-buffer
pointer reset on the deserialized path. -/
inductive SerEvent where
  | encodeCall
  | setFlag
  | blobAlloc (i : Nat)
  | blobPut (i : Nat)
  | sharedReset (i : Nat)
deriving DecidableEq, Repr

/-- Result of `Frame::serialize`: frame state at return, the returned
envelope (`none` models a NULL return), the event trace, the remaining
allocation script, and the thrown message if the call threw. -/
structure SerResult where
  frame : Frame
  env : Option MsgEnvelope
  trace : List SerEvent
  alloc : Alloc
  err : Option String

/-- Byte length `serialize` attributes to plane `i` on the fresh-frame path:
`width*height*channels` from the root fields (or the encoded vector's size)
for the primary plane, and from the `additional_frames[i-1]` descriptor for
the others.  The `msgbus_msg_envelope_get` return code for
`additional_frames` is not checked by the code; a missing key leaves the
local pointer uninitialized, which the model maps to a distinguished
error. -/
def serPlaneLen (f : Frame) (env : MsgEnvelope) (i : Nat) :
    Except String Int :=
  if i = 0 then
    .ok (if f.m_encode_type != .NONE then vectorSizeOf f.m_frame
         else f.m_width * f.m_height * f.m_channels)
  else
    match envGet env "additional_frames" with
    | none => .error "read of uninitialized additional_frames pointer"
    | some e =>
      match e with
      | .arr elems =>
        match arrayGetAt elems ((i : Int) - 1) with
        | none => .error "af_arr_obj is NULL"
        | some o =>
          match o with
          | .obj kvs =>
            match objGet kvs "width" with
            | some (.int w) =>
              match objGet kvs "height" with
              | some (.int h) =>
                match objGet kvs "channels" with
                | some (.int c) => .ok (w * h * c)
                | _ => .error "frame_channels is NULL"
              | _ => .error "frame_height is NULL"
            | _ => .error "frame_width is NULL"
          | _ => .error "af_arr_obj type should be MSG_ENV_DT_OBJECT"
      | _ => .error "additional_frames type not an array"

/-- Outcome of the fresh-frame blob loop in `serialize`: normal completion,
a C++ throw, or the early `return NULL` taken when a blob put fails. -/
inductive LoopOut where
  | ok (env : MsgEnvelope) (tr : List SerEvent) (al : Alloc)
  | threw (env : MsgEnvelope) (tr : List SerEvent) (al : Alloc) (msg : String)
  | retNull (env : MsgEnvelope) (tr : List SerEvent) (al : Alloc)

/-- The fresh-frame blob loop of `serialize` (frame.cpp lines 1078-1147). -/
def serFreshLoop (f : Frame) (idxs : List Nat) (env : MsgEnvelope)
    (tr : List SerEvent) (al : Alloc) : LoopOut :=
  match idxs with
  | [] => .ok env tr al
  | i :: rest =>
    match serPlaneLen f env i with
    | .error e => .threw env tr al e
    | .ok len =>
      let (ok, al') := allocStep al
      let tr' := tr ++ [SerEvent.blobAlloc i]
      if !ok then
        .threw env tr' al' "Failed to initialize blob for frame data"
      else
        let (ok2, env2, al2) :=
          envPutBlobChecked env (newBlobBytes (f.m_data.getD i []) len) al'
        if !ok2 then .retNull env2 tr' al2
        else serFreshLoop f rest env2 (tr' ++ [SerEvent.blobPut i]) al2

/-- The per-blob bookkeeping loop of `serialize` on a deserialized frame
whose blob slot is an array (frame.cpp lines 1043-1072): per blob a malloc,
an `owned_blob_copy`, and a shared-pointer reset. -/
def serDeserLoop (idxs : List Nat) (tr : List SerEvent) (al : Alloc) :
    List SerEvent × Alloc × Option String :=
  match idxs with
  | [] => (tr, al, none)
  | i :: rest =>
    let (ok, al') := allocStep al
    if !ok then (tr, al', some "malloc failed for m_blob_ptr")
    else
      let (ok2, al2) := allocStep al'
      if !ok2 then (tr, al2, some "Failed to copy msg_envelope_t owned blob")
      else serDeserLoop rest (tr ++ [SerEvent.sharedReset i]) al2

/-- `Frame::serialize()` (frame.cpp lines 994-1153). -/
def Frame.serialize (f : Frame) (imenc : Imencode) (al : Alloc) : SerResult :=
  if f.m_serialized then
    -- already serialized: log and return NULL
    ⟨f, none, [], al, none⟩
  else
    let r0 : MutResult × List SerEvent :=
      if f.m_encode_type != .NONE then
        (f.encode_frame imenc al, [SerEvent.encodeCall])
      else (⟨f, al, none⟩, [])
    match r0.1.err with
    | some e => ⟨r0.1.frame, none, r0.2, r0.1.alloc, some e⟩
    | none =>
      let f := r0.1.frame
      let al := r0.1.alloc
      let tr := r0.2
      if f.m_msg_present then
        -- deserialized-frame path: the flag is stored first
        let f1 := { f with m_serialized := true }
        let tr := tr ++ [SerEvent.setFlag]
        match envGetBlob f1.m_meta_data with
        | none =>
          ⟨f1, none, tr, al, some "Failed to retrieve frame blob from  msg envelope"⟩
        | some (.single _) =>
          let (ok, al') := allocStep al
          if !ok then ⟨f1, none, tr, al', some "malloc failed for m_blob_ptr"⟩
          else
            let (ok2, al2) := allocStep al'
            if !ok2 then
              ⟨f1, none, tr, al2, some "Failed to copy msg_envelope_t owned blob"⟩
            else
              let f2 := { f1 with m_msg_present := false }
              ⟨f2, some f2.m_meta_data, tr ++ [SerEvent.sharedReset 0], al2, none⟩
        | some (.many bs) =>
          let (tr2, al2, lerr) := serDeserLoop (List.range bs.length) tr al
          match lerr with
          | some e => ⟨f1, none, tr2, al2, some e⟩
          | none =>
            let f2 := { f1 with m_msg_present := false }
            ⟨f2, some f2.m_meta_data, tr2, al2, none⟩
      else
        -- fresh-frame path: blobs first, flag afterwards
        match serFreshLoop f (List.range f.m_num_frames.toNat)
                f.m_meta_data tr al with
        | .threw env tr' al' msg =>
          ⟨{ f with m_meta_data := env }, none, tr', al', some msg⟩
        | .retNull env tr' al' =>
          ⟨{ f with m_meta_data := env }, none, tr', al', none⟩
        | .ok env tr' al' =>
          let f2 := { f with m_meta_data := env, m_serialized := true }
          ⟨f2, some env, tr' ++ [SerEvent.setFlag], al', none⟩

/-- The deserialization constructor `Frame::Frame(msg_envelope_t*)`
(frame.cpp lines 134-265). -/
def Frame.from_envelope (msg : MsgEnvelope) (imdecode : Imdecode)
    (al : Alloc) : Except String (Frame × Alloc) :=
  match envGetBlob msg with
  | none => .error "Failed to retrieve frame blob from  msg envelope"
  | some slot =>
    let (ok, al) := allocStep al  -- malloc of m_data
    if !ok then .error "Malloc failed for m_data" else
    let num : Int := match slot with
      | .single _ => 1
      | .many bs => bs.length
    let dataList : List (List Nat) := match slot with
      | .single b => [b]
      | .many bs => bs
    match envGet msg "width" with
    | none => .error "Failed to retrieve width"
    | some wE =>
      match wE with
      | .int w =>
        match envGet msg "height" with
        | none => .error "Failed to retrieve height"
        | some hE =>
          match hE with
          | .int h =>
            match envGet msg "channels" with
            | none => .error "Failed to retrieve channels"
            | some cE =>
              match cE with
              | .int c =>
                match envGet msg "encoding_type" with
                | none =>
                  -- frame is not encoded
                  .ok ({ m_frame := .null, m_free_frame := none,
                         m_data := dataList, m_meta_data := msg,
                         m_msg_present := true, m_width := w, m_height := h,
                         m_channels := c, m_num_frames := num,
                         m_serialized := false, m_encode_type := .NONE,
                         m_encode_level := 0 }, al)
                | some etE =>
                  match etE with
                  | .str s =>
                    match envGet msg "encoding_level" with
                    | none => .error "Encoding level missing from frame meta-data"
                    | some elE =>
                      match elE with
                      | .int lvl =>
                        if s = "jpeg" || s = "png" then
                          let etype : EncodeType :=
                            if s = "jpeg" then .JPEG else .PNG
                          let buf : List Nat := match slot with
                            | .single b => b
                            | .many bs => bs.getD 0 []
                          match imdecode buf with
                          | none => .error "Failed to decode the encoded frame"
                          | some (cols, rows, chans, pix) =>
                            let f0 : Frame :=
                              { m_frame := .null, m_free_frame := none,
                                m_data := dataList, m_meta_data := msg,
                                m_msg_present := true, m_width := w,
                                m_height := h, m_channels := c,
                                m_num_frames := num, m_serialized := false,
                                m_encode_type := etype,
                                m_encode_level := lvl }
                            let r := f0.set_data (.matPtr pix) cols rows chans
                                       pix (some .free_decoded) 0 al
                            match r.err with
                            | some e => .error e
                            | none => .ok (r.frame, r.alloc)
                        else .error "Unknown encoding type"
                      | _ => .error "Encoding level must be an integer"
                  | _ => .error "Encoding type must be a string"
              | _ => .error "Frame channels must be an integer"
          | _ => .error "Frame height must be an integer"
      | _ => .error "Frame width must be an integer"

/-- UDF return codes (`UdfRetCode`). -/
inductive UdfRetCode where
  | UDF_OK
  | UDF_DROP_FRAME
  | UDF_ERROR
  | UDF_FRAME_MODIFIED
deriving DecidableEq, Repr

/-- The per-frame chain runner `UdfWorker::run` from
`libs/UDFLoader/src/udf_manager.cpp` (lines 234-268), abstracted over the
frame representation: each UDF handle's `process` is a function from the
frame to a return code and a possibly modified frame.  The result is the
surviving frame (`some` means it was pushed to the output queue; `none`
means it was destroyed) together with the list of return codes of the
handles that actually ran, in run order. -/
def udfWorkerRun {α : Type} (udfs : List (α → UdfRetCode × α)) (frame : α) :
    Option α × List UdfRetCode :=
  match udfs with
  | [] => (some frame, [])
  | handle :: rest =>
    let (ret, f') := handle frame
    match ret with
    | .UDF_DROP_FRAME => (none, [ret])
    | .UDF_ERROR => (none, [ret])
    | .UDF_FRAME_MODIFIED =>
      let (res, codes) := udfWorkerRun rest f'
      (res, ret :: codes)
    | .UDF_OK =>
      let (res, codes) := udfWorkerRun rest f'
      (res, ret :: codes)

/-! ### Concrete fixtures used by witnesses and counterexamples -/

/-- The 14 bytes of `"Hello, World!"` (with terminating NUL), as in the
repository's frame tests. -/
def helloBytes : List Nat :=
  [72, 101, 108, 108, 111, 44, 32, 87, 111, 114, 108, 100, 33, 0]

/-- A fresh unencoded single-plane 14x1x1 frame, exactly the state the
pixel-data constructor produces for the test scenario. -/
def frameHello : Frame :=
  { m_frame := .user 0, m_free_frame := some (.user 0),
    m_data := [helloBytes],
    m_meta_data := { kv := [("width", .int 14), ("height", .int 1),
                            ("channels", .int 1)], blob := none },
    m_msg_present := false, m_width := 14, m_height := 1, m_channels := 1,
    m_num_frames := 1, m_serialized := false, m_encode_type := .NONE,
    m_encode_level := 0 }

/-- Second plane payload `"Hello, World2"`-style, 14 bytes. -/
def helloBytes2 : List Nat :=
  [72, 101, 108, 108, 111, 44, 32, 87, 111, 114, 108, 100, 50, 0]

/-- A fresh unencoded two-plane frame whose envelope carries the
`additional_frames` descriptor for the second plane. -/
def frameTwo : Frame :=
  { m_frame := .user 1, m_free_frame := some (.user 1),
    m_data := [helloBytes, helloBytes2],
    m_meta_data :=
      { kv := [("width", .int 14), ("height", .int 1), ("channels", .int 1),
               ("additional_frames",
                .arr [.obj [("width", .int 14), ("height", .int 1),
                            ("channels", .int 1)]])],
        blob := none },
    m_msg_present := false, m_width := 14, m_height := 1, m_channels := 1,
    m_num_frames := 2, m_serialized := false, m_encode_type := .NONE,
    m_encode_level := 0 }

/-- Concrete 2x2x3 pixel payload. -/
def jpegPixels : List Nat := List.replicate 12 7

/-- A fresh single-plane 2x2x3 frame with JPEG encoding at level 50 (the
state the pixel-data constructor produces). -/
def frameJpeg : Frame :=
  { m_frame := .user 2, m_free_frame := some (.user 2),
    m_data := [jpegPixels],
    m_meta_data :=
      { kv := [("width", .int 2), ("height", .int 2), ("channels", .int 3),
               ("encoding_type", .str "jpeg"), ("encoding_level", .int 50)],
        blob := none },
    m_msg_present := false, m_width := 2, m_height := 2, m_channels := 3,
    m_num_frames := 1, m_serialized := false, m_encode_type := .JPEG,
    m_encode_level := 50 }

/-- A codec stub whose encode always produces three bytes. -/
def mockEnc : Imencode := fun _ _ _ _ _ _ => some [9, 9, 9]

/-- A codec stub whose decode restores the 2x2x3 image. -/
def mockDec : Imdecode := fun _ => some (2, 2, 3, jpegPixels)

/-! ### C8: encoding level validation -/

/-- C8: `verify_encoding_level` accepts exactly levels 0..100 for JPEG and
0..9 for PNG, accepts everything for NONE (in particular JPEG 0 and 100 and
PNG 0 and 9 are accepted while JPEG 101 and PNG 10 are rejected), and
`set_encoding` fails (throws the invalid-encoding message) for every
invalid (type, level) pair. -/
theorem C8_encoding_level_validation :
    (∀ level : Int,
      verify_encoding_level .JPEG level = true ↔ 0 ≤ level ∧ level ≤ 100) ∧
    (∀ level : Int,
      verify_encoding_level .PNG level = true ↔ 0 ≤ level ∧ level ≤ 9) ∧
    (∀ level : Int, verify_encoding_level .NONE level = true) ∧
    verify_encoding_level .JPEG 0 = true ∧
    verify_encoding_level .JPEG 100 = true ∧
    verify_encoding_level .JPEG 101 = false ∧
    verify_encoding_level .PNG 0 = true ∧
    verify_encoding_level .PNG 9 = true ∧
    verify_encoding_level .PNG 10 = false ∧
    (∀ (f : Frame) (t : EncodeType) (l : Int) (al : Alloc),
      verify_encoding_level t l = false →
      (f.set_encoding t l al).err =
        some "Invalid encoding level for the encoding type") := by
  refine ⟨?_, ?_, ?_, by decide, by decide, by decide, by decide, by decide,
          by decide, ?_⟩
  · intro level
    simp only [verify_encoding_level, Bool.and_eq_true, decide_eq_true_eq,
               ge_iff_le]
  · intro level
    simp only [verify_encoding_level, Bool.and_eq_true, decide_eq_true_eq,
               ge_iff_le]
  · intro level; rfl
  · intro f t l al h
    simp [Frame.set_encoding, h]

/-- Witness for C8 at a concrete input: JPEG level 101 is invalid and
`set_encoding` on the concrete test frame fails with the invalid-encoding
message. -/
theorem C8_encoding_level_validation_witness :
    verify_encoding_level .JPEG 101 = false ∧
    (frameHello.set_encoding .JPEG 101 []).err =
      some "Invalid encoding level for the encoding type" :=
  ⟨by decide,
   C8_encoding_level_validation.2.2.2.2.2.2.2.2.2 frameHello .JPEG 101 []
     (by decide)⟩

/-! ### C10: NULL free_frame is rejected first -/

/-- The constructor copies `free_frame` into `m_free_frame` on every
successful path. -/
theorem mk_frame_ok_free_frame (frame : FramePtr) (width height channels : Int)
    (data : List (List Nat)) (free_frame : Option FreeFn) (num_frames : Int)
    (encode_type : EncodeType) (encode_level : Int) (al : Alloc) (g : Frame)
    (al' : Alloc)
    (h : Frame.mk_frame frame width height channels data free_frame num_frames
           encode_type encode_level al = .ok (g, al')) :
    g.m_free_frame = free_frame := by
  unfold Frame.mk_frame at h
  repeat' split at h
  all_goals
    first
    | exact Except.noConfusion h
    | (injection h with h2; injection h2 with hg hal; subst hg; rfl)

/-- C10: the pixel-data constructor called with a NULL `free_frame` pointer
throws `"The free_frame() method cannot be NULL"` before anything else —
for every combination of the remaining arguments (including invalid
encoding levels) and every allocation script (including one where every
allocation fails, showing no envelope allocation is attempted first) — and
every successfully constructed frame carries a non-NULL releaser. -/
theorem C10_null_free_frame_rejected :
    (∀ (frame : FramePtr) (width height channels : Int)
       (data : List (List Nat)) (num_frames : Int) (encode_type : EncodeType)
       (encode_level : Int) (al : Alloc),
      Frame.mk_frame frame width height channels data none num_frames
          encode_type encode_level al =
        .error "The free_frame() method cannot be NULL") ∧
    (∀ (frame : FramePtr) (width height channels : Int)
       (data : List (List Nat)) (free_frame : Option FreeFn)
       (num_frames : Int) (encode_type : EncodeType) (encode_level : Int)
       (al : Alloc) (g : Frame) (al' : Alloc),
      Frame.mk_frame frame width height channels data free_frame num_frames
          encode_type encode_level al = .ok (g, al') →
      g.m_free_frame ≠ none) := by
  constructor
  · intro frame width height channels data num_frames encode_type
      encode_level al
    rfl
  · intro frame width height channels data free_frame num_frames encode_type
      encode_level al g al' h
    have := mk_frame_ok_free_frame frame width height channels data free_frame
      num_frames encode_type encode_level al g al' h
    cases free_frame with
    | none =>
      rw [show Frame.mk_frame frame width height channels data none num_frames
            encode_type encode_level al =
          .error "The free_frame() method cannot be NULL" from rfl] at h
      exact absurd h (by simp)
    | some fn => simp [this]

/-- Witness for C10: a concrete constructor call with a NULL releaser fails
with the expected message, and the concrete successful construction of the
test frame yields a non-NULL releaser. -/
theorem C10_null_free_frame_rejected_witness :
    Frame.mk_frame (.user 0) 14 1 1 [helloBytes] none 1 .NONE 0 [] =
      .error "The free_frame() method cannot be NULL" ∧
    frameHello.m_free_frame ≠ none :=
  ⟨C10_null_free_frame_rejected.1 (.user 0) 14 1 1 [helloBytes] 1 .NONE 0 [],
   C10_null_free_frame_rejected.2 (.user 0) 14 1 1 [helloBytes]
     (some (.user 0)) 1 .NONE 0 [] frameHello [] rfl⟩

/-! ### C7: UDF chain precedence -/

/-- A return code that lets the frame continue to the next handle. -/
def UdfRetCode.continues : UdfRetCode → Prop
  | .UDF_OK => True
  | .UDF_FRAME_MODIFIED => True
  | .UDF_DROP_FRAME => False
  | .UDF_ERROR => False

instance (c : UdfRetCode) : Decidable c.continues := by
  cases c <;> simp [UdfRetCode.continues] <;> infer_instance

/-- `getLast?` ignores a prepended element when the tail is nonempty. -/
theorem getLast?_cons_of_some {α : Type} (x c : α) (l : List α)
    (h : l.getLast? = some c) : (x :: l).getLast? = some c := by
  cases l with
  | nil => simp at h
  | cons a t => rw [List.getLast?_cons_cons]; exact h

/-- `dropLast` distributes over cons when the tail is nonempty. -/
theorem dropLast_cons_of_some {α : Type} (x c : α) (l : List α)
    (h : l.getLast? = some c) : (x :: l).dropLast = x :: l.dropLast := by
  cases l with
  | nil => simp at h
  | cons a t => rfl

/-- C7: the worker runs the chain sequentially and the run's code list
witnesses the precedence: the frame survives to the output queue exactly
when every handle ran (the code list is as long as the chain) and every
returned code was `Ok` or `FrameModified`; when the frame is destroyed, the
last executed code is `DropFrame` or `Error`, every earlier one let the
frame continue, and the chain short-circuited (no handle after the bad one
ran). -/
theorem C7_udf_chain_precedence {α : Type} (udfs : List (α → UdfRetCode × α))
    (frame : α) :
    (udfWorkerRun udfs frame).2.length ≤ udfs.length ∧
    ((udfWorkerRun udfs frame).1.isSome = true ↔
      ((udfWorkerRun udfs frame).2.length = udfs.length ∧
       ∀ c ∈ (udfWorkerRun udfs frame).2, c.continues)) ∧
    ((udfWorkerRun udfs frame).1 = none →
      ∃ c, (udfWorkerRun udfs frame).2.getLast? = some c ∧ ¬c.continues ∧
        ∀ c' ∈ (udfWorkerRun udfs frame).2.dropLast, c'.continues) := by
  induction udfs generalizing frame with
  | nil =>
    simp [udfWorkerRun]
  | cons handle rest ih =>
    obtain ⟨ih1, ih2, ih3⟩ := ih (handle frame).2
    cases hret : (handle frame).1 with
    | UDF_DROP_FRAME =>
      refine ⟨?_, ?_, ?_⟩ <;>
        simp [udfWorkerRun, hret, UdfRetCode.continues]
    | UDF_ERROR =>
      refine ⟨?_, ?_, ?_⟩ <;>
        simp [udfWorkerRun, hret, UdfRetCode.continues]
    | UDF_OK =>
      refine ⟨?_, ?_, ?_⟩
      · simpa [udfWorkerRun, hret, Nat.succ_le_succ_iff] using ih1
      · simp only [udfWorkerRun, hret]
        rw [show (handle frame) = ((handle frame).1, (handle frame).2) from rfl]
        simp only [hret]
        constructor
        · intro hs
          have := ih2.mp (by simpa using hs)
          refine ⟨by simp [this.1], ?_⟩
          intro c hc
          rcases List.mem_cons.mp hc with h | h
          · subst h; trivial
          · exact this.2 c h
        · intro ⟨hlen, hall⟩
          apply ih2.mpr
          refine ⟨by simpa using hlen, ?_⟩
          intro c hc
          exact hall c (List.mem_cons_of_mem _ hc)
      · intro hnone
        simp only [udfWorkerRun, hret] at hnone ⊢
        rw [show (handle frame) = ((handle frame).1, (handle frame).2) from rfl]
          at hnone ⊢
        simp only [hret] at hnone ⊢
        obtain ⟨c, hc1, hc2, hc3⟩ := ih3 (by simpa using hnone)
        refine ⟨c, getLast?_cons_of_some _ c _ hc1, hc2, ?_⟩
        intro c' hc'
        rw [dropLast_cons_of_some _ c _ hc1] at hc'
        rcases List.mem_cons.mp hc' with h | h
        · subst h; trivial
        · exact hc3 c' h
    | UDF_FRAME_MODIFIED =>
      refine ⟨?_, ?_, ?_⟩
      · simpa [udfWorkerRun, hret, Nat.succ_le_succ_iff] using ih1
      · simp only [udfWorkerRun, hret]
        rw [show (handle frame) = ((handle frame).1, (handle frame).2) from rfl]
        simp only [hret]
        constructor
        · intro hs
          have := ih2.mp (by simpa using hs)
          refine ⟨by simp [this.1], ?_⟩
          intro c hc
          rcases List.mem_cons.mp hc with h | h
          · subst h; trivial
          · exact this.2 c h
        · intro ⟨hlen, hall⟩
          apply ih2.mpr
          refine ⟨by simpa using hlen, ?_⟩
          intro c hc
          exact hall c (List.mem_cons_of_mem _ hc)
      · intro hnone
        simp only [udfWorkerRun, hret] at hnone ⊢
        rw [show (handle frame) = ((handle frame).1, (handle frame).2) from rfl]
          at hnone ⊢
        simp only [hret] at hnone ⊢
        obtain ⟨c, hc1, hc2, hc3⟩ := ih3 (by simpa using hnone)
        refine ⟨c, getLast?_cons_of_some _ c _ hc1, hc2, ?_⟩
        intro c' hc'
        rw [dropLast_cons_of_some _ c _ hc1] at hc'
        rcases List.mem_cons.mp hc' with h | h
        · subst h; trivial
        · exact hc3 c' h

/-- A concrete three-handle chain over `Nat` frames: the first returns `Ok`,
the second `DropFrame`, the third would return `Ok` but never runs. -/
def exampleChain : List (Nat → UdfRetCode × Nat) :=
  [fun n => (.UDF_OK, n + 1), fun n => (.UDF_DROP_FRAME, n),
   fun n => (.UDF_OK, n + 10)]

/-- Witness for C7: on the concrete chain the frame is destroyed after the
second handle; the theorem's short-circuit conclusion applies. -/
theorem C7_udf_chain_precedence_witness :
    (udfWorkerRun exampleChain 0).1 = none ∧
    (udfWorkerRun exampleChain 0).2 = [.UDF_OK, .UDF_DROP_FRAME] ∧
    ∃ c, (udfWorkerRun exampleChain 0).2.getLast? = some c ∧ ¬c.continues ∧
      ∀ c' ∈ (udfWorkerRun exampleChain 0).2.dropLast, c'.continues :=
  ⟨rfl, rfl, (C7_udf_chain_precedence exampleChain 0).2.2 rfl⟩

/-! ### C1: serialization is one-shot and terminal -/

set_option maxHeartbeats 3200000 in
/-- Every path of `serialize` that hands back an envelope has stored `true`
into `m_serialized` and thrown nothing. -/
theorem serialize_env_some_spec (f : Frame) (imenc : Imencode) (al : Alloc) :
    (f.serialize imenc al).env.isSome = true →
      (f.serialize imenc al).frame.m_serialized = true ∧
      (f.serialize imenc al).err = none := by
  unfold Frame.serialize
  intro h
  split at h
  · simp_all
  · split at h <;> repeat' ((try simp only [] at h); split at h)
    all_goals simp_all

/-- `serialize` on an already-serialized frame logs and returns NULL without
touching anything. -/
theorem serialize_already (g : Frame) (hg : g.m_serialized = true)
    (imenc : Imencode) (al : Alloc) :
    g.serialize imenc al = ⟨g, none, [], al, none⟩ := by
  unfold Frame.serialize
  simp [hg]

/-- C1: once `serialize()` has succeeded (returned an envelope), `get_data`
returns NULL for every index, `get_meta_data` returns NULL, and a second
`serialize()` returns NULL instead of an envelope (throwing nothing and
leaving the frame unchanged). -/
theorem C1_serialize_one_shot_terminal (f : Frame) (imenc : Imencode)
    (al : Alloc) (env : MsgEnvelope)
    (h : (f.serialize imenc al).env = some env) :
    (∀ i : Int, (f.serialize imenc al).frame.get_data i = none) ∧
    (f.serialize imenc al).frame.get_meta_data = none ∧
    (∀ (imenc2 : Imencode) (al2 : Alloc),
      ((f.serialize imenc al).frame.serialize imenc2 al2).env = none ∧
      ((f.serialize imenc al).frame.serialize imenc2 al2).err = none ∧
      ((f.serialize imenc al).frame.serialize imenc2 al2).frame =
        (f.serialize imenc al).frame) := by
  have hflag := (serialize_env_some_spec f imenc al (by simp [h])).1
  refine ⟨?_, ?_, ?_⟩
  · intro i
    simp [Frame.get_data, hflag]
  · simp [Frame.get_meta_data, hflag]
  · intro imenc2 al2
    rw [serialize_already _ hflag]
    exact ⟨rfl, rfl, rfl⟩

/-- The envelope produced by serializing the concrete single-plane test
frame: the root descriptor plus a single blob carrying the plane's bytes. -/
def envHello : MsgEnvelope :=
  { kv := [("width", .int 14), ("height", .int 1), ("channels", .int 1)],
    blob := some (.single helloBytes) }

/-- A codec stub for frames that are never encoded. -/
def noEnc : Imencode := fun _ _ _ _ _ _ => none

/-- Witness for C1: the concrete test frame serializes to a concrete
envelope, and the theorem's conclusions hold for it. -/
theorem C1_serialize_one_shot_terminal_witness :
    (frameHello.serialize noEnc []).env = some envHello ∧
    ((∀ i : Int, (frameHello.serialize noEnc []).frame.get_data i = none) ∧
     (frameHello.serialize noEnc []).frame.get_meta_data = none ∧
     (∀ (imenc2 : Imencode) (al2 : Alloc),
       ((frameHello.serialize noEnc []).frame.serialize imenc2 al2).env = none ∧
       ((frameHello.serialize noEnc []).frame.serialize imenc2 al2).err = none ∧
       ((frameHello.serialize noEnc []).frame.serialize imenc2 al2).frame =
         (frameHello.serialize noEnc []).frame)) :=
  ⟨rfl, C1_serialize_one_shot_terminal frameHello noEnc [] envHello rfl⟩

/-! ### C4: mutation atomicity -/

/-- Counterexample to C4: `set_encoding` on the concrete unencoded test
frame, with the first envelope allocation failing
(`msgbus_msg_envelope_new_string` returning NULL), throws — yet the frame's
`m_encode_type` has already been flipped from NONE to JPEG, so the failed
mutation left the frame changed. -/
theorem C4_counterexample :
    (frameHello.set_encoding .JPEG 50 [false]).err =
      some "Failed initialize encoding type meta-data" ∧
    frameHello.m_encode_type = .NONE ∧
    (frameHello.set_encoding .JPEG 50 [false]).frame.m_encode_type = .JPEG :=
  ⟨rfl, rfl, rfl⟩

/-- The conditional key removal in `set_encoding` never reports failure:
either the key is present and `envRemove` succeeds, or nothing is removed. -/
theorem condRemove_fst (env : MsgEnvelope) (k : String) :
    (if (envGet env k).isSome then envRemove env k else (true, env)).1
      = true := by
  by_cases h : (envGet env k).isSome
  · rw [if_pos h]
    unfold envRemove
    rw [if_pos h]
  · rw [if_neg h]

/-- C4 amended: only the initial validation failures are atomic — `set_data`
called on a serialized frame and `set_encoding` called with an invalid
(type, level) pair throw without touching the frame —, while a failure after
validation leaves the frame partially mutated: for every frame and every
valid non-NONE pair, when the first envelope string allocation fails
`set_encoding` throws with `m_encode_type`/`m_encode_level` already set to
the new values. -/
theorem C4_mutation_atomicity_amended :
    (∀ (f : Frame) (fr : FramePtr) (w h c : Int) (d : List Nat)
       (ff : Option FreeFn) (idx : Int) (al : Alloc),
      f.m_serialized = true →
      f.set_data fr w h c d ff idx al =
        ⟨f, al, some "Cannot set data after serialization"⟩) ∧
    (∀ (f : Frame) (t : EncodeType) (l : Int) (al : Alloc),
      verify_encoding_level t l = false →
      f.set_encoding t l al =
        ⟨f, al, some "Invalid encoding level for the encoding type"⟩) ∧
    (∀ (f : Frame) (t : EncodeType) (l : Int),
      verify_encoding_level t l = true → t ≠ .NONE →
      (f.set_encoding t l [false]).err =
        some "Failed initialize encoding type meta-data" ∧
      (f.set_encoding t l [false]).frame.m_encode_type = t ∧
      (f.set_encoding t l [false]).frame.m_encode_level = l) := by
  refine ⟨?_, ?_, ?_⟩
  · intro f fr w h c d ff idx al hs
    simp [Frame.set_data, hs]
  · intro f t l al hv
    simp [Frame.set_encoding, hv]
  · intro f t l hv ht
    unfold Frame.set_encoding
    simp only [hv, Bool.not_true, Bool.false_eq_true, if_false]
    simp only [condRemove_fst, Bool.not_true, Bool.false_eq_true, if_false]
    rw [if_neg ht]
    simp only [allocStep, Bool.not_false, if_true]
    exact ⟨by trivial, by trivial, by trivial⟩

/-- The concrete test frame after its one-shot serialization flag is set. -/
def frameHelloSer : Frame := { frameHello with m_serialized := true }

/-- Witness for the amended C4 at concrete inputs: `set_data` on a
serialized frame and `set_encoding` with JPEG level 101 both fail leaving
the frame untouched, and `set_encoding` with valid JPEG 50 whose first
envelope allocation fails throws with the fields already mutated. -/
theorem C4_mutation_atomicity_amended_witness :
    (frameHelloSer.set_data .null 1 1 1 [] none 0 [] =
      ⟨frameHelloSer, [], some "Cannot set data after serialization"⟩) ∧
    (frameHello.set_encoding .JPEG 101 [] =
      ⟨frameHello, [], some "Invalid encoding level for the encoding type"⟩) ∧
    ((frameHello.set_encoding .JPEG 50 [false]).err =
        some "Failed initialize encoding type meta-data" ∧
      (frameHello.set_encoding .JPEG 50 [false]).frame.m_encode_type =
        .JPEG ∧
      (frameHello.set_encoding .JPEG 50 [false]).frame.m_encode_level = 50) :=
  ⟨C4_mutation_atomicity_amended.1 frameHelloSer .null 1 1 1 [] none 0 [] rfl,
   C4_mutation_atomicity_amended.2.1 frameHello .JPEG 101 [] (by decide),
   C4_mutation_atomicity_amended.2.2 frameHello .JPEG 50 (by decide)
     (by decide)⟩

/-! ### C5: index bounds checking on accessors -/

/-- Whether an accessor call failed (threw). -/
def isError {α : Type} : Except String α → Bool
  | .error _ => true
  | .ok _ => false

/-- Counterexample to C5: on the concrete single-plane frame, index 1 is
outside [0, 1), and the metadata accessor `get_width` does fail — but
`get_data 1` performs no bounds check at all: it returns the unchecked heap
read `m_data[1]` (junk, modelled as `[]`) instead of failing. -/
theorem C5_counterexample :
    frameHello.get_number_of_frames = 1 ∧
    frameHello.m_serialized = false ∧
    isError (frameHello.get_width 1) = true ∧
    frameHello.get_data 1 = some [] :=
  ⟨rfl, rfl, rfl, rfl⟩

/-- C5 amended: for an index outside [0, N), the metadata accessors
`get_width`, `get_height`, `get_channels`, `get_encode_type` and
`get_encode_level` all throw (via the `additional_frames` fetch failing),
but `get_data` performs no index check: on a non-serialized frame it
returns the unchecked array read.  The hypothesis describes the two
envelope shapes a frame has: no `additional_frames` key (single-plane), or
an `additional_frames` array with N-1 entries. -/
theorem C5_bounds_amended (f : Frame) (N : Nat) (idx : Int)
    (_hN : f.m_num_frames = (N : Int)) (hNpos : 1 ≤ N)
    (hwf : envGet f.m_meta_data "additional_frames" = none ∨
           ∃ elems, envGet f.m_meta_data "additional_frames" =
               some (.arr elems) ∧ elems.length = N - 1)
    (hidx : idx < 0 ∨ (N : Int) ≤ idx)
    (hser : f.m_serialized = false) :
    isError (f.get_width idx) = true ∧
    isError (f.get_height idx) = true ∧
    isError (f.get_channels idx) = true ∧
    isError (f.get_encode_type idx) = true ∧
    isError (f.get_encode_level idx) = true ∧
    ∃ v, f.get_data idx = some v := by
  have hidx0 : ¬(idx = 0) := by omega
  have hfetch : ∀ key, isError (fetch_multi_frame_parameter f.m_meta_data idx key) = true := by
    intro key
    unfold fetch_multi_frame_parameter
    rcases hwf with hnone | ⟨elems, harr, hlen⟩
    · simp only [hnone]
      rfl
    · have hga : arrayGetAt elems (idx - 1) = none := by
        unfold arrayGetAt
        rcases hidx with hneg | hge
        · rw [if_pos (by omega)]
        · rw [if_neg (by omega)]
          apply List.get?_eq_none.mpr
          omega
      simp only [harr, hga]
      rfl
  refine ⟨?_, ?_, ?_, ?_, ?_, ?_⟩
  · unfold Frame.get_width
    rw [if_neg hidx0]
    have := hfetch "width"
    rcases hE : fetch_multi_frame_parameter f.m_meta_data idx "width" with e | v
    · rfl
    · rw [hE] at this; simp [isError] at this
  · unfold Frame.get_height
    rw [if_neg hidx0]
    have := hfetch "height"
    rcases hE : fetch_multi_frame_parameter f.m_meta_data idx "height" with e | v
    · rfl
    · rw [hE] at this; simp [isError] at this
  · unfold Frame.get_channels
    rw [if_neg hidx0]
    have := hfetch "channels"
    rcases hE : fetch_multi_frame_parameter f.m_meta_data idx "channels" with e | v
    · rfl
    · rw [hE] at this; simp [isError] at this
  · unfold Frame.get_encode_type
    rw [if_neg hidx0]
    have := hfetch "encoding_type"
    rcases hE : fetch_multi_frame_parameter f.m_meta_data idx "encoding_type"
        with e | v
    · rfl
    · rw [hE] at this; simp [isError] at this
  · unfold Frame.get_encode_level
    rw [if_neg hidx0]
    have := hfetch "encoding_level"
    rcases hE : fetch_multi_frame_parameter f.m_meta_data idx "encoding_level"
        with e | v
    · rfl
    · rw [hE] at this; simp [isError] at this
  · exact ⟨_, by unfold Frame.get_data; rw [if_neg (by simp [hser])]⟩

/-- Witness for the amended C5: on the concrete two-plane frame, index 2 is
out of range; all five metadata accessors fail while `get_data` hands back
the unchecked read. -/
theorem C5_bounds_amended_witness :
    isError (frameTwo.get_width 2) = true ∧
    isError (frameTwo.get_height 2) = true ∧
    isError (frameTwo.get_channels 2) = true ∧
    isError (frameTwo.get_encode_type 2) = true ∧
    isError (frameTwo.get_encode_level 2) = true ∧
    ∃ v, frameTwo.get_data 2 = some v := by
  have h := C5_bounds_amended frameTwo 2 2 rfl (by omega)
    (Or.inr ⟨[.obj [("width", .int 14), ("height", .int 1),
                    ("channels", .int 1)]], rfl, rfl⟩)
    (Or.inr (by omega)) rfl
  exact h

/-! ### C6: position of the serialized-flag store -/

/-- Events that mutate the envelope's blob state. -/
def isBlobEvent : SerEvent → Bool
  | .blobAlloc _ => true
  | .blobPut _ => true
  | _ => false

/-- The ordering property C6 asserts of a serialize run: every blob
allocation or put is preceded by the flag store. -/
def flagBeforeBlobMutation (tr : List SerEvent) : Bool :=
  (List.range tr.length).all (fun j =>
    !(isBlobEvent (tr.getD j .setFlag)) ||
    (List.range j).any (fun k => tr.getD k .setFlag == .setFlag))

/-- Counterexample to C6: serializing the concrete fresh frame succeeds with
the trace `[blobAlloc 0, blobPut 0, setFlag]` — the blob is allocated and
put into the envelope before `m_serialized` is stored, so on the fresh-frame
path the flag is not set before the envelope mutation. -/
theorem C6_counterexample :
    (frameHello.serialize noEnc []).env.isSome = true ∧
    (frameHello.serialize noEnc []).trace =
      [.blobAlloc 0, .blobPut 0, .setFlag] ∧
    flagBeforeBlobMutation (frameHello.serialize noEnc []).trace = false :=
  ⟨rfl, rfl, rfl⟩

/-- A successful fresh-path blob loop appends only blob events. -/
theorem serFreshLoop_ok_events (f : Frame) :
    ∀ (idxs : List Nat) (env : MsgEnvelope) (tr : List SerEvent) (al : Alloc)
      (env' : MsgEnvelope) (tr' : List SerEvent) (al' : Alloc),
      serFreshLoop f idxs env tr al = .ok env' tr' al' →
      ∃ suffix, tr' = tr ++ suffix ∧ ∀ e ∈ suffix, isBlobEvent e = true := by
  intro idxs
  induction idxs with
  | nil =>
    intro env tr al env' tr' al' h
    unfold serFreshLoop at h
    injection h with h1 h2 h3
    exact ⟨[], by simp [h2]⟩
  | cons i rest ih =>
    intro env tr al env' tr' al' h
    unfold serFreshLoop at h
    rcases hlen : serPlaneLen f env i with e | len
    · simp only [hlen] at h
      exact absurd h (by simp)
    · simp only [hlen] at h
      rcases hstep : allocStep al with ⟨ok, al1⟩
      simp only [hstep] at h
      cases ok
      · simp at h
      · simp only [Bool.not_true, Bool.false_eq_true, if_false] at h
        rcases hput : envPutBlobChecked env
            (newBlobBytes (f.m_data.getD i []) len) al1 with ⟨ok2, env2, al2⟩
        simp only [hput] at h
        cases ok2
        · simp at h
        · simp only [Bool.not_true, Bool.false_eq_true, if_false] at h
          obtain ⟨suffix, hs1, hs2⟩ := ih _ _ _ _ _ _ h
          refine ⟨SerEvent.blobAlloc i :: SerEvent.blobPut i :: suffix, ?_, ?_⟩
          · rw [hs1]; simp
          · intro e he
            rcases List.mem_cons.mp he with rfl | he
            · rfl
            · rcases List.mem_cons.mp he with rfl | he
              · rfl
              · exact hs2 e he

/-- The deserialized-path bookkeeping loop only appends events. -/
theorem serDeserLoop_prefix :
    ∀ (idxs : List Nat) (tr : List SerEvent) (al : Alloc),
      ∃ suffix, (serDeserLoop idxs tr al).1 = tr ++ suffix := by
  intro idxs
  induction idxs with
  | nil => intro tr al; exact ⟨[], by simp [serDeserLoop]⟩
  | cons i rest ih =>
    intro tr al
    unfold serDeserLoop
    rcases hstep : allocStep al with ⟨ok, al1⟩
    simp only []
    cases ok
    · exact ⟨[], by simp⟩
    · simp only [Bool.not_true, Bool.false_eq_true, if_false]
      rcases hstep2 : allocStep al1 with ⟨ok2, al2⟩
      simp only []
      cases ok2
      · exact ⟨[], by simp⟩
      · simp only [Bool.not_true, Bool.false_eq_true, if_false]
        obtain ⟨suffix, hs⟩ := ih (tr ++ [SerEvent.sharedReset i]) al2
        exact ⟨[SerEvent.sharedReset i] ++ suffix, by rw [hs]; simp⟩

/-- The trace component of a fresh-path blob loop outcome. -/
def loopTrace : LoopOut → List SerEvent
  | .ok _ tr _ => tr
  | .threw _ tr _ _ => tr
  | .retNull _ tr _ => tr

/-- The fresh-path blob loop only ever appends to the incoming trace,
whatever its outcome. -/
theorem serFreshLoop_trace_prefix (f : Frame) :
    ∀ (idxs : List Nat) (env : MsgEnvelope) (tr : List SerEvent) (al : Alloc),
      ∃ s, loopTrace (serFreshLoop f idxs env tr al) = tr ++ s := by
  intro idxs
  induction idxs with
  | nil => intro env tr al; exact ⟨[], by simp [serFreshLoop, loopTrace]⟩
  | cons i rest ih =>
    intro env tr al
    unfold serFreshLoop
    rcases hlen : serPlaneLen f env i with e | len
    · simp only [hlen]
      exact ⟨[], by simp [loopTrace]⟩
    · simp only [hlen]
      rcases hstep : allocStep al with ⟨ok, al1⟩
      simp only [hstep]
      cases ok
      · exact ⟨[SerEvent.blobAlloc i], by simp [loopTrace]⟩
      · simp only [Bool.not_true, Bool.false_eq_true, if_false]
        rcases hput : envPutBlobChecked env
            (newBlobBytes (f.m_data.getD i []) len) al1 with ⟨ok2, env2, al2⟩
        simp only [hput]
        cases ok2
        · exact ⟨[SerEvent.blobAlloc i], by simp [loopTrace]⟩
        · simp only [Bool.not_true, Bool.false_eq_true, if_false]
          obtain ⟨s, hs⟩ := ih env2 (tr ++ [SerEvent.blobAlloc i]
            ++ [SerEvent.blobPut i]) al2
          exact ⟨[SerEvent.blobAlloc i] ++ [SerEvent.blobPut i] ++ s,
            by rw [hs]; simp⟩

/-- When an encoding is pending, the `encode_frame` call is the first thing
`serialize` does: every trace starts with `encodeCall`, whatever the
outcome. -/
theorem serialize_trace_enc_head (f : Frame) (imenc : Imencode) (al : Alloc)
    (hser : f.m_serialized = false) (henc : f.m_encode_type ≠ .NONE) :
    ∃ s, (f.serialize imenc al).trace = SerEvent.encodeCall :: s := by
  have hne : (f.m_encode_type != EncodeType.NONE) = true := by
    simpa using henc
  unfold Frame.serialize
  simp only [hser, Bool.false_eq_true, if_false, hne, if_true]
  rcases herr : (f.encode_frame imenc al).err with _ | e
  · simp only [herr]
    by_cases hmp : (f.encode_frame imenc al).frame.m_msg_present = true
    · simp only [hmp, if_true]
      rcases hblob : envGetBlob (f.encode_frame imenc al).frame.m_meta_data
          with _ | slot <;> (try simp only [hblob])
      · exact ⟨[SerEvent.setFlag], rfl⟩
      · rcases slot with bytes | bs
        · rcases hstep : allocStep (f.encode_frame imenc al).alloc
              with ⟨ok, al1⟩
          simp only [hstep]
          cases ok
          · exact ⟨[SerEvent.setFlag], rfl⟩
          · simp only [Bool.not_true, Bool.false_eq_true, if_false]
            rcases hstep2 : allocStep al1 with ⟨ok2, al2⟩
            simp only [hstep2]
            cases ok2
            · exact ⟨[SerEvent.setFlag], rfl⟩
            · simp only [Bool.not_true, Bool.false_eq_true, if_false]
              exact ⟨[SerEvent.setFlag, SerEvent.sharedReset 0], rfl⟩
        · rcases hloop : serDeserLoop (List.range bs.length)
              ([SerEvent.encodeCall] ++ [SerEvent.setFlag])
              (f.encode_frame imenc al).alloc with ⟨tr2, al2, lerr⟩
          obtain ⟨suffix, hsx⟩ := serDeserLoop_prefix (List.range bs.length)
            ([SerEvent.encodeCall] ++ [SerEvent.setFlag])
            (f.encode_frame imenc al).alloc
          rw [hloop] at hsx
          simp only at hsx
          simp only [hloop]
          rcases lerr with _ | e <;> simp only []
          · exact ⟨[SerEvent.setFlag] ++ suffix, by rw [hsx]; rfl⟩
          · exact ⟨[SerEvent.setFlag] ++ suffix, by rw [hsx]; rfl⟩
    · simp only [hmp, if_false]
      obtain ⟨s, hs⟩ := serFreshLoop_trace_prefix (f.encode_frame imenc al).frame
        (List.range (f.encode_frame imenc al).frame.m_num_frames.toNat)
        (f.encode_frame imenc al).frame.m_meta_data
        [SerEvent.encodeCall] (f.encode_frame imenc al).alloc
      rcases hloop : serFreshLoop (f.encode_frame imenc al).frame
          (List.range (f.encode_frame imenc al).frame.m_num_frames.toNat)
          (f.encode_frame imenc al).frame.m_meta_data
          [SerEvent.encodeCall] (f.encode_frame imenc al).alloc
          with ⟨env', tr', al'⟩ | ⟨env', tr', al', msg⟩ | ⟨env', tr', al'⟩ <;>
        rw [hloop] at hs <;> simp only [loopTrace] at hs <;>
        simp only [hloop]
      · exact ⟨s ++ [SerEvent.setFlag], by rw [hs]; rfl⟩
      · exact ⟨s, hs⟩
      · exact ⟨s, hs⟩
  · exact ⟨[], by simp only [herr]⟩

/-- C6 amended: `serialize` stores the flag before any blob mutation only on
the deserialized-frame path and only when no encoding is pending: with
`m_encode_type = NONE` the flag store is the first recorded event there,
while on the fresh-frame path the flag is stored only after every plane's
blob has been allocated and put (the flag store is the last event, preceded
only by blob mutations).  When an encoding is set, the `encode_frame` call —
which rewrites the envelope blob through `set_data` — is serialize's first
recorded action on every path, preceding the flag store. -/
theorem C6_flag_order_amended (f : Frame) (imenc : Imencode) (al : Alloc)
    (hser : f.m_serialized = false)
    (hok : (f.serialize imenc al).env.isSome = true) :
    (f.m_encode_type = .NONE → f.m_msg_present = true →
      (f.serialize imenc al).trace.head? = some .setFlag) ∧
    (f.m_encode_type = .NONE → f.m_msg_present = false →
      (f.serialize imenc al).trace.getLast? = some .setFlag ∧
      ∀ e ∈ (f.serialize imenc al).trace.dropLast, isBlobEvent e = true) ∧
    (f.m_encode_type ≠ .NONE →
      (f.serialize imenc al).trace.head? = some .encodeCall) := by
  refine ⟨fun henc hmsg => ?_, fun henc hmsg => ?_, fun henc => ?_⟩
  case refine_3 =>
    obtain ⟨s, hs⟩ := serialize_trace_enc_head f imenc al hser henc
    rw [hs]
    rfl
  case refine_1 =>
    unfold Frame.serialize at hok ⊢
    simp only [hser, henc, bne_self_eq_false, Bool.false_eq_true, if_false,
               ite_false] at hok ⊢
    simp only [hmsg] at hok ⊢
    simp only [if_true] at hok ⊢
    rcases hblob : envGetBlob f.m_meta_data with _ | slot <;>
      simp only [hblob] at hok ⊢
    · simp at hok
    · rcases slot with bytes | bs
      · rcases hstep : allocStep al with ⟨ok, al1⟩
        simp only [hstep] at hok ⊢
        cases ok
        · simp at hok
        · simp only [Bool.not_true, Bool.false_eq_true, if_false] at hok ⊢
          rcases hstep2 : allocStep al1 with ⟨ok2, al2⟩
          simp only [hstep2] at hok ⊢
          cases ok2
          · simp at hok
          · simp only [Bool.not_true, Bool.false_eq_true, if_false] at hok ⊢
            rfl
      · rcases hloop : serDeserLoop (List.range bs.length)
            ([] ++ [SerEvent.setFlag]) al with ⟨tr2, al2, lerr⟩
        simp only [hloop] at hok ⊢
        rcases lerr with _ | e
        · simp only []
          obtain ⟨suffix, hs⟩ := serDeserLoop_prefix
            (List.range bs.length) ([] ++ [SerEvent.setFlag]) al
          rw [hloop] at hs
          simp only at hs
          rw [hs]
          rfl
        · simp at hok
  case refine_2 =>
    unfold Frame.serialize at hok ⊢
    simp only [hser, henc, bne_self_eq_false, Bool.false_eq_true, if_false,
               ite_false] at hok ⊢
    simp only [hmsg] at hok ⊢
    simp only [Bool.false_eq_true, if_false] at hok ⊢
    rcases hloop : serFreshLoop f (List.range f.m_num_frames.toNat)
        f.m_meta_data [] al with ⟨env', tr', al'⟩ | ⟨env', tr', al', msg⟩ |
        ⟨env', tr', al'⟩ <;>
      simp only [hloop] at hok ⊢
    · obtain ⟨suffix, hs1, hs2⟩ := serFreshLoop_ok_events f _ _ _ _ _ _ _ hloop
      subst hs1
      constructor
      · exact List.getLast?_concat _
      · rw [List.dropLast_concat]
        exact hs2
    · simp at hok
    · simp at hok

/-- Witness for the amended C6: on the concrete unencoded fresh frame
serialization succeeds and the flag store is the last trace event, after the
blob mutations; on the concrete JPEG frame the `encode_frame` call is the
first trace event. -/
theorem C6_flag_order_amended_witness :
    frameHello.m_serialized = false ∧
    frameHello.m_encode_type = .NONE ∧
    (frameHello.serialize noEnc []).env.isSome = true ∧
    ((frameHello.serialize noEnc []).trace.getLast? = some .setFlag ∧
      ∀ e ∈ (frameHello.serialize noEnc []).trace.dropLast,
        isBlobEvent e = true) ∧
    frameJpeg.m_serialized = false ∧
    (frameJpeg.m_encode_type = .NONE → False) ∧
    (frameJpeg.serialize mockEnc []).env.isSome = true ∧
    (frameJpeg.serialize mockEnc []).trace.head? = some .encodeCall :=
  ⟨rfl, rfl, rfl,
   (C6_flag_order_amended frameHello noEnc [] rfl rfl).2.1 rfl rfl,
   rfl, by decide, rfl,
   (C6_flag_order_amended frameJpeg mockEnc [] rfl rfl).2.2 (by decide)⟩

/-! ### Envelope key lemmas -/

/-- Filtering out one key leaves lookups for other keys unchanged. -/
theorem find?_filter_ne {α : Type} (l : List (String × α)) (k k' : String)
    (h : k' ≠ k) :
    (l.filter (fun p => !(p.1 == k))).find? (fun p => p.1 == k') =
      l.find? (fun p => p.1 == k') := by
  induction l with
  | nil => rfl
  | cons x xs ih =>
    by_cases hx : x.1 = k
    · have h1 : (x.1 == k) = true := by simp [hx]
      have h2 : (x.1 == k') = false := by
        simp only [beq_eq_false_iff_ne, ne_eq, hx]
        exact fun hh => h hh.symm
      simp [List.filter_cons, List.find?_cons, h1, h2, ih]
    · have h1 : (x.1 == k) = false := by simp [hx]
      by_cases hx' : x.1 = k'
      · have h2 : (x.1 == k') = true := by simp [hx']
        simp [List.filter_cons, List.find?_cons, h1, h2]
      · have h2 : (x.1 == k') = false := by simp [hx']
        simp [List.filter_cons, List.find?_cons, h1, h2, ih]

/-- After `envRemove env k`, looking up `k` yields nothing. -/
theorem envGet_envRemove_self (env : MsgEnvelope) (k : String) :
    envGet (envRemove env k).2 k = none := by
  unfold envRemove
  split
  · unfold envGet
    simp only []
    rw [List.find?_eq_none.mpr]
    · rfl
    · intro x hx
      have := (List.mem_filter.mp hx).2
      simpa using this
  · rename_i hns
    simp only []
    exact Option.not_isSome_iff_eq_none.mp (by simpa using hns)

/-- `envRemove env k` does not affect lookups of other keys. -/
theorem envGet_envRemove_ne (env : MsgEnvelope) (k k' : String)
    (h : k' ≠ k) : envGet (envRemove env k).2 k' = envGet env k' := by
  unfold envRemove
  split
  · unfold envGet
    simp only []
    rw [find?_filter_ne _ _ _ h]
  · rfl

/-- `envPut` with an absent key and no injected failure appends the pair. -/
theorem envPut_ok (env : MsgEnvelope) (k : String) (e : EnvElem)
    (h : envGet env k = none) :
    envPut env k e [] = (true, { env with kv := env.kv ++ [(k, e)] }, []) := by
  unfold envPut allocStep
  simp [h]

/-- Appending a pair for key `k` does not affect lookups of other keys. -/
theorem envGet_appendOne_ne (env : MsgEnvelope) (k : String) (e : EnvElem)
    (k' : String) (h : k' ≠ k) :
    envGet { env with kv := env.kv ++ [(k, e)] } k' = envGet env k' := by
  unfold envGet
  rw [List.find?_append]
  have hke : (k == k') = false := by
    simp only [beq_eq_false_iff_ne, ne_eq]
    exact fun hh => h hh.symm
  cases hf : env.kv.find? (fun p => p.1 == k') with
  | some v => simp [hf]
  | none => simp [hf, List.find?_cons, hke]

/-- Appending a pair for key `k` makes `k` resolve when it was absent. -/
theorem envGet_appendOne_self (env : MsgEnvelope) (k : String) (e : EnvElem)
    (h : envGet env k = none) :
    envGet { env with kv := env.kv ++ [(k, e)] } k = some e := by
  unfold envGet at h ⊢
  rw [List.find?_append]
  rcases hf : env.kv.find? (fun p => p.1 == k) with _ | v
  · simp [hf, List.find?_cons]
  · rw [hf] at h; simp at h

/-- Key lookup over an appended tail: the original binding wins, otherwise
the tail is searched. -/
theorem envGet_append (env : MsgEnvelope) (l : List (String × EnvElem))
    (k : String) :
    envGet { env with kv := env.kv ++ l } k =
      match envGet env k with
      | some v => some v
      | none => (l.find? (fun p => p.1 == k)).map Prod.snd := by
  unfold envGet
  rw [List.find?_append]
  rcases hf : env.kv.find? (fun p => p.1 == k) with _ | v <;> simp [hf]

/-! ### C3: round-trip with encoding -/

/-- Removing a key does not touch the blob slot. -/
theorem envRemove_blob (env : MsgEnvelope) (k : String) :
    ((envRemove env k).2).blob = env.blob := by
  unfold envRemove
  split <;> rfl

/-- The envelope produced by the root-descriptor stage of `set_data` at
index 0: the old `width`/`height`/`channels` keys are removed and the new
values appended. -/
def rootDescEnv (env : MsgEnvelope) (w h c : Int) : MsgEnvelope :=
  let e3 := (envRemove (envRemove (envRemove env "width").2 "height").2
    "channels").2
  { e3 with kv := e3.kv ++ [("width", EnvElem.int w)]
      ++ [("height", EnvElem.int h)] ++ [("channels", EnvElem.int c)] }

/-- The root-descriptor rewrite leaves the blob slot alone. -/
theorem rootDescEnv_blob (env : MsgEnvelope) (w h c : Int) :
    (rootDescEnv env w h c).blob = env.blob := by
  unfold rootDescEnv
  simp only [envRemove_blob]

/-- The three-remove stage looks up `width` as `none`. -/
theorem rootDescRemoved_width (env : MsgEnvelope) :
    (envRemove (envRemove (envRemove env "width").2 "height").2
      "channels").2.kv.find? (fun p => p.1 == "width") = none := by
  have h0 : envGet (envRemove (envRemove (envRemove env "width").2
      "height").2 "channels").2 "width" = none := by
    rw [envGet_envRemove_ne _ _ _ (by decide),
        envGet_envRemove_ne _ _ _ (by decide), envGet_envRemove_self]
  unfold envGet at h0
  exact Option.map_eq_none'.mp h0

/-- The three-remove stage looks up `height` as `none`. -/
theorem rootDescRemoved_height (env : MsgEnvelope) :
    (envRemove (envRemove (envRemove env "width").2 "height").2
      "channels").2.kv.find? (fun p => p.1 == "height") = none := by
  have h0 : envGet (envRemove (envRemove (envRemove env "width").2
      "height").2 "channels").2 "height" = none := by
    rw [envGet_envRemove_ne _ _ _ (by decide), envGet_envRemove_self]
  unfold envGet at h0
  exact Option.map_eq_none'.mp h0

/-- The three-remove stage looks up `channels` as `none`. -/
theorem rootDescRemoved_channels (env : MsgEnvelope) :
    (envRemove (envRemove (envRemove env "width").2 "height").2
      "channels").2.kv.find? (fun p => p.1 == "channels") = none := by
  have h0 : envGet (envRemove (envRemove (envRemove env "width").2
      "height").2 "channels").2 "channels" = none := by
    rw [envGet_envRemove_self]
  unfold envGet at h0
  exact Option.map_eq_none'.mp h0

/-- After the root-descriptor rewrite, `width` resolves to the new value. -/
theorem rootDescEnv_width (env : MsgEnvelope) (w h c : Int) :
    envGet (rootDescEnv env w h c) "width" = some (.int w) := by
  unfold rootDescEnv envGet
  simp only []
  rw [List.find?_append, List.find?_append, List.find?_append,
      rootDescRemoved_width]
  rfl

/-- After the root-descriptor rewrite, `height` resolves to the new value. -/
theorem rootDescEnv_height (env : MsgEnvelope) (w h c : Int) :
    envGet (rootDescEnv env w h c) "height" = some (.int h) := by
  unfold rootDescEnv envGet
  simp only []
  rw [List.find?_append, List.find?_append, List.find?_append,
      rootDescRemoved_height]
  rfl

/-- After the root-descriptor rewrite, `channels` resolves to the new
value. -/
theorem rootDescEnv_channels (env : MsgEnvelope) (w h c : Int) :
    envGet (rootDescEnv env w h c) "channels" = some (.int c) := by
  unfold rootDescEnv envGet
  simp only []
  rw [List.find?_append, List.find?_append, List.find?_append,
      rootDescRemoved_channels]
  rfl

/-- The root-descriptor rewrite leaves every other key alone. -/
theorem rootDescEnv_other (env : MsgEnvelope) (w h c : Int) (k : String)
    (hk1 : k ≠ "width") (hk2 : k ≠ "height") (hk3 : k ≠ "channels") :
    envGet (rootDescEnv env w h c) k = envGet env k := by
  have h0 : envGet (envRemove (envRemove (envRemove env "width").2
      "height").2 "channels").2 k = envGet env k := by
    rw [envGet_envRemove_ne _ _ _ hk3, envGet_envRemove_ne _ _ _ hk2,
        envGet_envRemove_ne _ _ _ hk1]
  have b1 : ("width" == k) = false := beq_eq_false_iff_ne.mpr (Ne.symm hk1)
  have b2 : ("height" == k) = false := beq_eq_false_iff_ne.mpr (Ne.symm hk2)
  have b3 : ("channels" == k) = false :=
    beq_eq_false_iff_ne.mpr (Ne.symm hk3)
  have hx : ∀ (o : Option (String × EnvElem)),
      o.or none = o := by intro o; cases o <;> rfl
  unfold envGet at h0
  unfold rootDescEnv envGet
  simp only []
  rw [List.find?_append, List.find?_append, List.find?_append]
  have hw1 : [("width", EnvElem.int w)].find? (fun p => p.1 == k)
      = none := by simp [List.find?_cons, b1]
  have hh1 : [("height", EnvElem.int h)].find? (fun p => p.1 == k)
      = none := by simp [List.find?_cons, b2]
  have hc1 : [("channels", EnvElem.int c)].find? (fun p => p.1 == k)
      = none := by simp [List.find?_cons, b3]
  rw [hw1, hh1, hc1, hx, hx, hx]
  exact h0

/-- The root-descriptor stage with no injected allocation failure: the new
dimensions are stored in the fields and the envelope is rewritten to
`rootDescEnv`. -/
theorem setDataRootDesc_ok (f : Frame) (w h c : Int) :
    setDataRootDesc f w h c [] =
      ⟨{ f with m_width := w, m_height := h, m_channels := c,
                m_meta_data := rootDescEnv f.m_meta_data w h c }, [],
        none⟩ := by
  have h1 : envGet (envRemove (envRemove (envRemove f.m_meta_data "width").2
      "height").2 "channels").2 "width" = none := by
    rw [envGet_envRemove_ne _ _ _ (by decide),
        envGet_envRemove_ne _ _ _ (by decide), envGet_envRemove_self]
  have h2 : envGet { (envRemove (envRemove (envRemove f.m_meta_data
        "width").2 "height").2 "channels").2 with
      kv := (envRemove (envRemove (envRemove f.m_meta_data "width").2
        "height").2 "channels").2.kv ++ [("width", EnvElem.int w)] }
      "height" = none := by
    unfold envGet
    simp only []
    rw [List.find?_append, rootDescRemoved_height]
    rfl
  have h3 : envGet { (envRemove (envRemove (envRemove f.m_meta_data
        "width").2 "height").2 "channels").2 with
      kv := (envRemove (envRemove (envRemove f.m_meta_data "width").2
        "height").2 "channels").2.kv ++ [("width", EnvElem.int w)]
        ++ [("height", EnvElem.int h)] } "channels" = none := by
    unfold envGet
    simp only []
    rw [List.find?_append, List.find?_append, rootDescRemoved_channels]
    rfl
  unfold setDataRootDesc rootDescEnv
  simp only []
  rw [envPut_ok _ _ _ h1]
  simp only [Bool.not_true, Bool.false_eq_true, if_false]
  rw [envPut_ok _ _ _ h2]
  simp only [Bool.not_true, Bool.false_eq_true, if_false]
  rw [envPut_ok _ _ _ h3]
  simp only [Bool.not_true, Bool.false_eq_true, if_false]

/-- `set_data` at index 0 on a fresh (non-deserialized) frame with no
injected allocation failure: the buffers are repointed, the dimension fields
take the new values and the root descriptor is rewritten; everything else —
in particular `m_encode_type`, `m_num_frames` and the blob slot — is
untouched. -/
theorem set_data_fresh0 (f : Frame) (fr : FramePtr) (w h c : Int)
    (d : List Nat) (ff : Option FreeFn)
    (hser : f.m_serialized = false) (hmsg : f.m_msg_present = false) :
    f.set_data fr w h c d ff 0 [] =
      ⟨{ f with m_frame := fr, m_free_frame := ff,
                m_data := f.m_data.set 0 d,
                m_width := w, m_height := h, m_channels := c,
                m_meta_data := rootDescEnv f.m_meta_data w h c }, [],
        none⟩ := by
  unfold Frame.set_data setDataRelease
  rw [if_neg (by simp [hser])]
  rw [if_pos (show (!f.m_msg_present) = true by simp [hmsg])]
  simp only [allocStep, Bool.not_true, Bool.false_eq_true, if_false, if_true]
  rw [if_neg (by decide : ¬ ((0 : Int) < 0))]
  rw [setDataRootDesc_ok]
  rfl

/-- The fresh-path blob loop over the single plane 0 of an encoded frame:
the primary blob length is read from the encoded vector, so the whole
encoded buffer is attached as the single blob. -/
theorem serFreshLoop_single_enc (g : Frame) (env : MsgEnvelope)
    (tr : List SerEvent) (enc : List Nat)
    (hne : (g.m_encode_type != EncodeType.NONE) = true)
    (hfr : g.m_frame = .vecPtr enc)
    (hd : g.m_data.getD 0 [] = enc)
    (hb : env.blob = none) :
    serFreshLoop g [0] env tr [] =
      .ok { env with blob := some (.single enc) }
        (tr ++ [SerEvent.blobAlloc 0] ++ [SerEvent.blobPut 0]) [] := by
  unfold serFreshLoop serPlaneLen envPutBlobChecked envPutBlob newBlobBytes
  rw [if_pos rfl, if_pos hne, hfr, hd, hb]
  simp only [vectorSizeOf, allocStep, Bool.not_true, Bool.false_eq_true,
             if_false, if_true, Int.toNat_natCast, List.take_length, slotPut,
             serFreshLoop]

/-- `set_data` at index 0 on a deserialized frame whose blob slot is an
array: the indexed blob is removed, the new bytes are appended at the end of
the array, and the root descriptor is rewritten; the pixel buffers and
dimension fields are updated as for the single-blob case. -/
theorem set_data_deser_many (f : Frame) (fr : FramePtr) (w h c : Int)
    (d : List Nat) (ff : Option FreeFn) (bs : List (List Nat))
    (hser : f.m_serialized = false) (hmsg : f.m_msg_present = true)
    (hblob : f.m_meta_data.blob = some (.many bs)) (hbs : 1 ≤ bs.length) :
    ∃ env', f.set_data fr w h c d ff 0 [] =
      ⟨{ f with m_frame := fr, m_data := f.m_data.set 0 d,
                m_width := w, m_height := h, m_channels := c,
                m_meta_data := env' }, [], none⟩ := by
  have hbs' : ¬ ((bs.length : Int) ≤ 0) := by omega
  have hw : envGet (envRemove ((envRemove ((envRemove
      { f.m_meta_data with blob := some (.many (bs.eraseIdx 0 ++
          [newBlobBytes d
            (if (0 : Int) = 0 && f.m_encode_type != .NONE then
              vectorSizeOf fr else w * h * c)])) } "width").2) "height").2)
      "channels").2 "width" = none := by
    rw [envGet_envRemove_ne _ _ _ (by decide),
        envGet_envRemove_ne _ _ _ (by decide), envGet_envRemove_self]
  unfold Frame.set_data setDataRelease setDataRootDesc
  simp only [hser, hmsg, hblob, allocStep, envPutBlobChecked, envPutBlob,
             slotPut]
  simp [allocStep, envPut_ok, envGet_envRemove_self, envGet_envRemove_ne,
        envGet_appendOne_ne, envGet_append, hw, hbs']

/-- `set_data` at index 0 on a deserialized single-blob frame with no
injected allocation failure succeeds: it swaps the blob, repoints the pixel
data and rewrites the root descriptor, leaving every other frame field (in
particular `m_encode_type`) unchanged. -/
theorem set_data_deser_single (f : Frame) (fr : FramePtr) (w h c : Int)
    (d : List Nat) (ff : Option FreeFn) (b : List Nat)
    (hser : f.m_serialized = false) (hmsg : f.m_msg_present = true)
    (hblob : f.m_meta_data.blob = some (.single b)) :
    ∃ env' : MsgEnvelope,
      f.set_data fr w h c d ff 0 [] =
        ⟨{ f with m_frame := fr, m_data := f.m_data.set 0 d,
                  m_width := w, m_height := h, m_channels := c,
                  m_meta_data := env' }, [], none⟩ := by
  have hw : envGet (envRemove ((envRemove ((envRemove
      { f.m_meta_data with blob := some (.single (newBlobBytes d
          (if (0 : Int) = 0 && f.m_encode_type != .NONE then vectorSizeOf fr
           else w * h * c))) } "width").2) "height").2) "channels").2
      "width" = none := by
    rw [envGet_envRemove_ne _ _ _ (by decide),
        envGet_envRemove_ne _ _ _ (by decide),
        envGet_envRemove_self]
  unfold Frame.set_data setDataRelease setDataRootDesc
  simp only [hser, hmsg, hblob, allocStep, envPutBlobChecked, envPutBlob]
  simp [allocStep, envPut_ok, envGet_envRemove_self, envGet_envRemove_ne,
        envGet_appendOne_ne, envGet_append, hw]

/-- Deserializing an encoded single-blob envelope decodes the pixels and
takes width/height/channels from the decoder's output, but the constructed
frame's encode type is still the original JPEG/PNG (the constructor never
resets `m_encode_type` to NONE, and the envelope keeps its
`encoding_type`/`encoding_level` keys). -/
theorem from_envelope_encoded_single (msg : MsgEnvelope) (imdec : Imdecode)
    (b : List Nat) (w h c : Int) (s : String) (lvl : Int)
    (cols rows chans : Int) (pix : List Nat)
    (hblob : msg.blob = some (.single b))
    (hw : envGet msg "width" = some (.int w))
    (hh : envGet msg "height" = some (.int h))
    (hc : envGet msg "channels" = some (.int c))
    (het : envGet msg "encoding_type" = some (.str s))
    (hel : envGet msg "encoding_level" = some (.int lvl))
    (hs : s = "jpeg" ∨ s = "png")
    (hdec : imdec b = some (cols, rows, chans, pix)) :
    ∃ g al', Frame.from_envelope msg imdec [] = .ok (g, al') ∧
      g.m_encode_type = (if s = "jpeg" then EncodeType.JPEG else .PNG) ∧
      g.m_encode_type ≠ .NONE ∧
      g.m_encode_level = lvl ∧
      g.m_width = cols ∧
      g.m_height = rows ∧
      g.m_channels = chans ∧
      g.m_data = [pix] ∧
      g.m_num_frames = 1 := by
  have hf0 : ∀ (etype : EncodeType),
      ∃ env' : MsgEnvelope,
        Frame.set_data
          { m_frame := .null, m_free_frame := none, m_data := [b],
            m_meta_data := msg, m_msg_present := true, m_width := w,
            m_height := h, m_channels := c, m_num_frames := 1,
            m_serialized := false, m_encode_type := etype,
            m_encode_level := lvl } (.matPtr pix) cols rows chans pix
          (some .free_decoded) 0 [] =
        ⟨{ m_frame := .matPtr pix, m_free_frame := none,
           m_data := [b].set 0 pix, m_meta_data := env',
           m_msg_present := true, m_width := cols, m_height := rows,
           m_channels := chans, m_num_frames := 1, m_serialized := false,
           m_encode_type := etype, m_encode_level := lvl }, [], none⟩ := by
    intro etype
    exact set_data_deser_single _ (.matPtr pix) cols rows chans pix
      (some .free_decoded) b rfl rfl hblob
  unfold Frame.from_envelope
  rcases hs with hs | hs <;> subst hs
  · obtain ⟨env', hsd⟩ := hf0 .JPEG
    simp only [envGetBlob, hblob, hw, hh, hc, het, hel, allocStep, hdec, hsd]
    simp [hsd]
  · obtain ⟨env', hsd⟩ := hf0 .PNG
    simp only [envGetBlob, hblob, hw, hh, hc, het, hel, allocStep, hdec, hsd]
    simp [hsd]

/-- Deserializing an encoded envelope whose blob slot is an array (the
multi-plane wire format) decodes only blob 0: the primary plane's pixels
come from the decoder and the dimensions from the decoded image, while
every other plane keeps its raw wire bytes, and the frame's encode type is
still the original JPEG/PNG. -/
theorem from_envelope_encoded_many (msg : MsgEnvelope) (imdec : Imdecode)
    (bs : List (List Nat)) (w h c : Int) (s : String) (lvl : Int)
    (cols rows chans : Int) (pix : List Nat)
    (hblob : msg.blob = some (.many bs)) (hbs : 1 ≤ bs.length)
    (hw : envGet msg "width" = some (.int w))
    (hh : envGet msg "height" = some (.int h))
    (hc : envGet msg "channels" = some (.int c))
    (het : envGet msg "encoding_type" = some (.str s))
    (hel : envGet msg "encoding_level" = some (.int lvl))
    (hs : s = "jpeg" ∨ s = "png")
    (hdec : imdec (bs.getD 0 []) = some (cols, rows, chans, pix)) :
    ∃ g al', Frame.from_envelope msg imdec [] = .ok (g, al') ∧
      g.m_encode_type = (if s = "jpeg" then EncodeType.JPEG else .PNG) ∧
      g.m_encode_type ≠ .NONE ∧
      g.m_encode_level = lvl ∧
      g.m_num_frames = (bs.length : Int) ∧
      g.m_width = cols ∧
      g.m_height = rows ∧
      g.m_channels = chans ∧
      g.m_data = bs.set 0 pix := by
  have hf0 : ∀ (etype : EncodeType),
      ∃ env' : MsgEnvelope,
        Frame.set_data
          { m_frame := .null, m_free_frame := none, m_data := bs,
            m_meta_data := msg, m_msg_present := true, m_width := w,
            m_height := h, m_channels := c,
            m_num_frames := (bs.length : Int),
            m_serialized := false, m_encode_type := etype,
            m_encode_level := lvl } (.matPtr pix) cols rows chans pix
          (some .free_decoded) 0 [] =
        ⟨{ m_frame := .matPtr pix, m_free_frame := none,
           m_data := bs.set 0 pix, m_meta_data := env',
           m_msg_present := true, m_width := cols, m_height := rows,
           m_channels := chans, m_num_frames := (bs.length : Int),
           m_serialized := false, m_encode_type := etype,
           m_encode_level := lvl }, [], none⟩ := by
    intro etype
    obtain ⟨env', he⟩ := set_data_deser_many
      { m_frame := .null, m_free_frame := none, m_data := bs,
        m_meta_data := msg, m_msg_present := true, m_width := w,
        m_height := h, m_channels := c, m_num_frames := (bs.length : Int),
        m_serialized := false, m_encode_type := etype,
        m_encode_level := lvl } (.matPtr pix) cols rows chans pix
      (some .free_decoded) bs rfl rfl hblob hbs
    exact ⟨env', he⟩
  unfold Frame.from_envelope
  rcases hs with hs | hs <;> subst hs
  · obtain ⟨env', hsd⟩ := hf0 .JPEG
    simp only [envGetBlob, hblob, hw, hh, hc, het, hel, allocStep, hdec, hsd]
    simp [hsd]
  · obtain ⟨env', hsd⟩ := hf0 .PNG
    simp only [envGetBlob, hblob, hw, hh, hc, het, hel, allocStep, hdec, hsd]
    simp [hsd]

/-- The observable outcome of serializing the JPEG frame and deserializing
the resulting envelope: the new frame's `(encode_type, width, height,
channels)` as returned by the accessors. -/
def c3RoundTrip : Except String (EncodeType × Int × Int × Int) :=
  match (frameJpeg.serialize mockEnc []).env with
  | none => .error "serialize returned NULL"
  | some env =>
    match Frame.from_envelope env mockDec [] with
    | .error e => .error e
    | .ok (g, _) =>
      match g.get_encode_type 0 with
      | .error e => .error e
      | .ok t => .ok (t, g.m_width, g.m_height, g.m_channels)

/-- Counterexample to C3: serializing the concrete JPEG frame and
deserializing the result yields a frame whose `get_encode_type 0` is still
JPEG — not NONE as the claim states. -/
theorem C3_counterexample :
    c3RoundTrip = .ok (.JPEG, 2, 2, 3) ∧ EncodeType.JPEG ≠ .NONE :=
  ⟨rfl, by decide⟩

/-- C3 amended: serialize-then-deserialize of an encoded frame keeps the
original JPEG/PNG encode type — `get_encode_type(0)` is not None — because
the deserializing constructor never resets `m_encode_type` and the envelope
keeps its encoding keys.  For every well-formed single-plane encoded frame
the rest of the round trip behaves as specified (whenever the codec's decode
inverts its encode): the primary plane is decoded and the new frame's
width/height/channels equal the original pre-encode values.  On the
multi-plane wire format (a blob array) the constructor decodes only blob 0:
every later plane keeps its raw wire bytes. -/
theorem C3_roundtrip_encoded_amended :
    (∀ (f : Frame) (imenc : Imencode) (imdec : Imdecode) (s : String)
       (lvl : Int) (enc pix : List Nat),
      f.m_serialized = false → f.m_msg_present = false →
      f.m_num_frames = 1 → f.m_data.length = 1 →
      f.m_meta_data.blob = none →
      ((f.m_encode_type = .JPEG ∧ s = "jpeg") ∨
        (f.m_encode_type = .PNG ∧ s = "png")) →
      envGet f.m_meta_data "encoding_type" = some (.str s) →
      envGet f.m_meta_data "encoding_level" = some (.int lvl) →
      imenc f.m_encode_type f.m_encode_level f.m_height f.m_width
        f.m_channels (f.m_data.getD 0 []) = some enc →
      imdec enc = some (f.m_width, f.m_height, f.m_channels, pix) →
      ∃ env g al',
        (f.serialize imenc []).env = some env ∧
        (f.serialize imenc []).err = none ∧
        Frame.from_envelope env imdec [] = .ok (g, al') ∧
        g.m_encode_type = f.m_encode_type ∧
        g.m_encode_type ≠ .NONE ∧
        g.get_encode_type 0 = .ok f.m_encode_type ∧
        g.m_width = f.m_width ∧
        g.m_height = f.m_height ∧
        g.m_channels = f.m_channels ∧
        g.m_data = [pix] ∧
        g.m_num_frames = 1) ∧
    (∀ (msg : MsgEnvelope) (imdec : Imdecode) (bs : List (List Nat))
       (w h c : Int) (s : String) (lvl : Int)
       (cols rows chans : Int) (pix : List Nat),
      msg.blob = some (.many bs) → 1 ≤ bs.length →
      envGet msg "width" = some (.int w) →
      envGet msg "height" = some (.int h) →
      envGet msg "channels" = some (.int c) →
      envGet msg "encoding_type" = some (.str s) →
      envGet msg "encoding_level" = some (.int lvl) →
      (s = "jpeg" ∨ s = "png") →
      imdec (bs.getD 0 []) = some (cols, rows, chans, pix) →
      ∃ g al', Frame.from_envelope msg imdec [] = .ok (g, al') ∧
        g.m_encode_type ≠ .NONE ∧
        g.m_num_frames = (bs.length : Int) ∧
        g.m_width = cols ∧ g.m_height = rows ∧ g.m_channels = chans ∧
        g.m_data = bs.set 0 pix) := by
  constructor
  · intro f imenc imdec s lvl enc pix hser hmsg hnum hdl hblob hty het hel
      himenc himdec
    have hne : (f.m_encode_type != EncodeType.NONE) = true := by
      rcases hty with ⟨h, _⟩ | ⟨h, _⟩ <;> simp [h]
    have hs2 : s = "jpeg" ∨ s = "png" := by
      rcases hty with ⟨_, h⟩ | ⟨_, h⟩
      · exact Or.inl h
      · exact Or.inr h
    have hrange : List.range f.m_num_frames.toNat = [0] := by
      rw [hnum]; rfl
    obtain ⟨d0, hd0⟩ : ∃ d0, f.m_data = [d0] := by
      rcases hdd : f.m_data with _ | ⟨a, rest⟩
      · rw [hdd] at hdl; simp at hdl
      · rcases rest with _ | ⟨b, r⟩
        · exact ⟨a, rfl⟩
        · rw [hdd] at hdl; simp at hdl
    have hsd := set_data_fresh0 f (.vecPtr enc) f.m_width f.m_height
      f.m_channels enc
      (if f.m_num_frames > 1 then none else some FreeFn.free_encoded)
      hser hmsg
    have hencf : f.encode_frame imenc [] =
        ⟨{ f with m_frame := .vecPtr enc,
                  m_free_frame := (if f.m_num_frames > 1 then none
                    else some FreeFn.free_encoded),
                  m_data := f.m_data.set 0 enc,
                  m_width := f.m_width, m_height := f.m_height,
                  m_channels := f.m_channels,
                  m_meta_data := rootDescEnv f.m_meta_data f.m_width
                    f.m_height f.m_channels }, [], none⟩ := by
      unfold Frame.encode_frame
      rw [hrange]
      rcases hty with ⟨h, _⟩ | ⟨h, _⟩ <;> rw [h] at himenc <;>
        simp only [encodeLoop, if_true, h, himenc, hsd]
    have hserz : f.serialize imenc [] =
        ⟨{ f with m_frame := .vecPtr enc,
                  m_free_frame := (if f.m_num_frames > 1 then none
                    else some FreeFn.free_encoded),
                  m_data := f.m_data.set 0 enc,
                  m_width := f.m_width, m_height := f.m_height,
                  m_channels := f.m_channels,
                  m_meta_data := { rootDescEnv f.m_meta_data f.m_width
                      f.m_height f.m_channels with
                    blob := some (.single enc) },
                  m_serialized := true },
          some { rootDescEnv f.m_meta_data f.m_width f.m_height
              f.m_channels with blob := some (.single enc) },
          [SerEvent.encodeCall] ++ [SerEvent.blobAlloc 0]
            ++ [SerEvent.blobPut 0] ++ [SerEvent.setFlag], [], none⟩ := by
      unfold Frame.serialize
      rw [if_neg (by simp [hser])]
      rw [if_pos hne]
      simp only [hencf]
      simp only [hmsg, Bool.false_eq_true, if_false]
      rw [hrange]
      rw [serFreshLoop_single_enc]
      · exact hne
      · rfl
      · simp [hd0]
      · simp only [rootDescEnv_blob]
        exact hblob
    obtain ⟨g, al', hfe, hgenc, hgne, hglvl, hgw, hgh, hgc, hgdata, hgnum⟩ :=
      from_envelope_encoded_single
        { rootDescEnv f.m_meta_data f.m_width f.m_height f.m_channels with
          blob := some (.single enc) } imdec enc f.m_width f.m_height
        f.m_channels s lvl f.m_width f.m_height f.m_channels pix rfl
        (rootDescEnv_width _ _ _ _) (rootDescEnv_height _ _ _ _)
        (rootDescEnv_channels _ _ _ _)
        ((rootDescEnv_other _ _ _ _ _ (by decide) (by decide)
          (by decide)).trans het)
        ((rootDescEnv_other _ _ _ _ _ (by decide) (by decide)
          (by decide)).trans hel)
        hs2 himdec
    have hgenc' : g.m_encode_type = f.m_encode_type := by
      rcases hty with ⟨h, hsx⟩ | ⟨h, hsx⟩ <;> subst hsx <;>
        rw [hgenc, h] <;> simp
    refine ⟨_, g, al', ?_, ?_, hfe, hgenc', hgne, ?_, hgw, hgh, hgc,
      hgdata, hgnum⟩
    · rw [hserz]
    · rw [hserz]
    · unfold Frame.get_encode_type
      rw [if_pos rfl, hgenc']
  · intro msg imdec bs w h c s lvl cols rows chans pix hblob hbs hw hh hc
      het hel hs hdec
    obtain ⟨g, al', hfe, _, hgne, _, hgnum, hgw, hgh, hgc, hgdata⟩ :=
      from_envelope_encoded_many msg imdec bs w h c s lvl cols rows chans
        pix hblob hbs hw hh hc het hel hs hdec
    exact ⟨g, al', hfe, hgne, hgnum, hgw, hgh, hgc, hgdata⟩

/-- A concrete multi-plane encoded wire envelope: two blobs, the first the
encoded primary plane. -/
def envManyC3 : MsgEnvelope :=
  { kv := [("width", .int 2), ("height", .int 2), ("channels", .int 3),
           ("encoding_type", .str "jpeg"), ("encoding_level", .int 50)],
    blob := some (.many [[9, 9, 9], [5, 5]]) }

/-- Witness for the amended C3: the concrete JPEG frame round-trips through
serialize and the envelope constructor keeping its JPEG encode type and its
pre-encode 2x2x3 dimensions, and the concrete two-blob wire envelope
deserializes with only blob 0 decoded. -/
theorem C3_roundtrip_encoded_amended_witness :
    (∃ env g al',
      (frameJpeg.serialize mockEnc []).env = some env ∧
      (frameJpeg.serialize mockEnc []).err = none ∧
      Frame.from_envelope env mockDec [] = .ok (g, al') ∧
      g.m_encode_type = frameJpeg.m_encode_type ∧
      g.m_encode_type ≠ .NONE ∧
      g.get_encode_type 0 = .ok frameJpeg.m_encode_type ∧
      g.m_width = frameJpeg.m_width ∧
      g.m_height = frameJpeg.m_height ∧
      g.m_channels = frameJpeg.m_channels ∧
      g.m_data = [jpegPixels] ∧
      g.m_num_frames = 1) ∧
    (∃ g al',
      Frame.from_envelope envManyC3 mockDec [] = .ok (g, al') ∧
      g.m_encode_type ≠ .NONE ∧
      g.m_num_frames = (([[9, 9, 9], [5, 5]] : List (List Nat)).length :
        Int) ∧
      g.m_width = 2 ∧ g.m_height = 2 ∧ g.m_channels = 3 ∧
      g.m_data = ([[9, 9, 9], [5, 5]] : List (List Nat)).set 0 jpegPixels) :=
  ⟨C3_roundtrip_encoded_amended.1 frameJpeg mockEnc mockDec "jpeg" 50
     [9, 9, 9] jpegPixels rfl rfl rfl rfl rfl (Or.inl ⟨rfl, rfl⟩) rfl rfl
     rfl rfl,
   C3_roundtrip_encoded_amended.2 envManyC3 mockDec [[9, 9, 9], [5, 5]]
     2 2 3 "jpeg" 50 2 2 3 jpegPixels rfl (by decide) rfl rfl rfl rfl rfl
     (Or.inl rfl) rfl⟩

/-! ### C2: round-trip without encoding -/

/-- Key lookup depends only on the key-value list. -/
theorem envGet_congr (env env' : MsgEnvelope) (k : String)
    (h : env'.kv = env.kv) : envGet env' k = envGet env k := by
  unfold envGet
  rw [h]

/-- Attaching a blob leaves the key-value list untouched. -/
theorem envPutBlob_kv (env : MsgEnvelope) (d : List Nat) :
    (envPutBlob env d).kv = env.kv := rfl

/-- The plane-length computation reads only the key-value list (besides the
frame fields). -/
theorem serPlaneLen_congr (f : Frame) (env env' : MsgEnvelope) (i : Nat)
    (h : env'.kv = env.kv) : serPlaneLen f env' i = serPlaneLen f env i := by
  unfold serPlaneLen
  rw [envGet_congr _ _ _ h]

/-- The multi-frame parameter fetch reads only the key-value list. -/
theorem fetch_multi_frame_parameter_congr (env env' : MsgEnvelope) (i : Int)
    (k : String) (h : env'.kv = env.kv) :
    fetch_multi_frame_parameter env' i k =
      fetch_multi_frame_parameter env i k := by
  unfold fetch_multi_frame_parameter
  rw [envGet_congr _ _ _ h]

/-- Folding blob puts never changes the key-value list. -/
theorem foldl_envPutBlob_kv (g : Nat → List Nat) :
    ∀ (idxs : List Nat) (env : MsgEnvelope),
      (idxs.foldl (fun e i => envPutBlob e (g i)) env).kv = env.kv := by
  intro idxs
  induction idxs with
  | nil => intro env; rfl
  | cons i rest ih => intro env; rw [List.foldl_cons, ih]; rfl

/-- Folding blob puts acts on the slot as the fold of `slotPut`. -/
theorem foldl_envPutBlob_blob (g : Nat → List Nat) :
    ∀ (idxs : List Nat) (env : MsgEnvelope),
      (idxs.foldl (fun e i => envPutBlob e (g i)) env).blob =
        (idxs.map g).foldl slotPut env.blob := by
  intro idxs
  induction idxs with
  | nil => intro env; rfl
  | cons i rest ih => intro env; rw [List.foldl_cons, ih]; rfl

/-- Folding blob attachments onto an array slot appends in order. -/
theorem foldl_slotPut_many :
    ∀ (ds bs : List (List Nat)),
      ds.foldl slotPut (some (.many bs)) = some (.many (bs ++ ds)) := by
  intro ds
  induction ds with
  | nil => intro bs; simp
  | cons d rest ih =>
    intro bs
    rw [List.foldl_cons]
    show rest.foldl slotPut (some (.many (bs ++ [d]))) = _
    rw [ih]
    simp

/-- Folding blob attachments onto an empty slot: one blob stays a single
blob, several become the array of all of them in order. -/
theorem foldl_slotPut_none (d : List Nat) (ds : List (List Nat)) :
    (d :: ds).foldl slotPut none =
      some (match ds with
            | [] => BlobSlot.single d
            | _ :: _ => BlobSlot.many (d :: ds)) := by
  cases ds with
  | nil => rfl
  | cons d2 rest =>
    rw [List.foldl_cons, List.foldl_cons]
    show rest.foldl slotPut (some (.many [d, d2])) = _
    rw [foldl_slotPut_many]
    rfl

/-- Enumerating a list by indexed reads reproduces the list. -/
theorem map_getD_range (l : List (List Nat)) :
    (List.range l.length).map (fun i => l.getD i []) = l := by
  apply List.ext_get
  · simp
  · intro n h1 h2
    rw [List.get_map, List.get_range]
    rw [List.getD_eq_get?, List.get?_eq_get h2]
    rfl

/-- The fresh-path blob loop, when every plane's computed length matches its
buffer, succeeds and produces exactly the fold of blob puts over the plane
buffers. -/
theorem serFreshLoop_wf (f : Frame) :
    ∀ (idxs : List Nat) (env : MsgEnvelope) (tr : List SerEvent),
      (∀ i ∈ idxs, ∃ len, serPlaneLen f env i = .ok len ∧
         newBlobBytes (f.m_data.getD i []) len = f.m_data.getD i []) →
      ∃ tr', serFreshLoop f idxs env tr [] =
        .ok (idxs.foldl (fun e i => envPutBlob e (f.m_data.getD i [])) env)
          tr' [] := by
  intro idxs
  induction idxs with
  | nil =>
    intro env tr _
    exact ⟨tr, rfl⟩
  | cons i rest ih =>
    intro env tr hwf
    obtain ⟨len, hlen, htake⟩ := hwf i (List.mem_cons_self _ _)
    have hrest : ∀ j ∈ rest, ∃ lj,
        serPlaneLen f (envPutBlob env (f.m_data.getD i [])) j = .ok lj ∧
        newBlobBytes (f.m_data.getD j []) lj = f.m_data.getD j [] := by
      intro j hj
      obtain ⟨lj, hlj, htj⟩ := hwf j (List.mem_cons_of_mem _ hj)
      refine ⟨lj, ?_, htj⟩
      rw [serPlaneLen_congr f env _ j (envPutBlob_kv env _)]
      exact hlj
    obtain ⟨tr', htr'⟩ :=
      ih (envPutBlob env (f.m_data.getD i []))
        (tr ++ [SerEvent.blobAlloc i] ++ [SerEvent.blobPut i]) hrest
    refine ⟨tr', ?_⟩
    unfold serFreshLoop
    simp only [hlen, allocStep, envPutBlobChecked, htake, Bool.not_true,
               Bool.false_eq_true, if_false, List.foldl_cons]
    exact htr'

/-- `from_envelope` on an unencoded envelope: the planes are exactly the
blob slot's byte buffers and the root descriptor is read back verbatim. -/
theorem from_envelope_unencoded (msg : MsgEnvelope) (imdec : Imdecode)
    (slot : BlobSlot) (w h c : Int)
    (hblob : msg.blob = some slot)
    (hw : envGet msg "width" = some (.int w))
    (hh : envGet msg "height" = some (.int h))
    (hc : envGet msg "channels" = some (.int c))
    (hnoenc : envGet msg "encoding_type" = none) :
    Frame.from_envelope msg imdec [] = .ok
      ({ m_frame := .null, m_free_frame := none,
         m_data := (match slot with | .single b => [b] | .many bs => bs),
         m_meta_data := msg, m_msg_present := true, m_width := w,
         m_height := h, m_channels := c,
         m_num_frames :=
           (match slot with
            | .single _ => 1
            | .many bs => (bs.length : Int)),
         m_serialized := false, m_encode_type := .NONE,
         m_encode_level := 0 }, []) := by
  unfold Frame.from_envelope
  simp only [envGetBlob, hblob, allocStep, hw, hh, hc, hnoenc]
  cases slot <;> simp

/-- C2: serializing a fresh unencoded frame with N well-formed planes and
deserializing the resulting envelope yields a frame with N planes whose
per-plane width/height/channels (through the accessors) and pixel bytes are
identical to the original's.  The hypotheses state exactly the envelope
shape the pixel-data constructor and `additional_frames` population
produce. -/
theorem C2_roundtrip_unencoded (f : Frame) (N : Nat) (imenc : Imencode)
    (imdec : Imdecode)
    (hser : f.m_serialized = false) (hmsg : f.m_msg_present = false)
    (henc : f.m_encode_type = .NONE)
    (hN : f.m_num_frames = (N : Int)) (hlen : f.m_data.length = N)
    (hNpos : 1 ≤ N)
    (hblob : f.m_meta_data.blob = none)
    (hw : envGet f.m_meta_data "width" = some (.int f.m_width))
    (hh : envGet f.m_meta_data "height" = some (.int f.m_height))
    (hc : envGet f.m_meta_data "channels" = some (.int f.m_channels))
    (hnoenc : envGet f.m_meta_data "encoding_type" = none)
    (hd0 : f.m_width * f.m_height * f.m_channels =
      ((f.m_data.getD 0 []).length : Int))
    (haf : ∀ i : Nat, 1 ≤ i → i < N →
      ∃ elems obj wi hi ci,
        envGet f.m_meta_data "additional_frames" = some (.arr elems) ∧
        arrayGetAt elems ((i : Int) - 1) = some (.obj obj) ∧
        objGet obj "width" = some (.int wi) ∧
        objGet obj "height" = some (.int hi) ∧
        objGet obj "channels" = some (.int ci) ∧
        wi * hi * ci = ((f.m_data.getD i []).length : Int)) :
    ∃ env g al',
      (f.serialize imenc []).env = some env ∧
      (f.serialize imenc []).err = none ∧
      Frame.from_envelope env imdec [] = .ok (g, al') ∧
      g.m_num_frames = (N : Int) ∧
      g.m_data = f.m_data ∧
      (∀ i : Nat, i < N →
        g.get_width i = f.get_width i ∧
        g.get_height i = f.get_height i ∧
        g.get_channels i = f.get_channels i) := by
  -- every plane's serialized length matches its buffer
  have hwf : ∀ i ∈ List.range N, ∃ len,
      serPlaneLen f f.m_meta_data i = .ok len ∧
      newBlobBytes (f.m_data.getD i []) len = f.m_data.getD i [] := by
    intro i hi
    rcases Nat.eq_zero_or_pos i with rfl | hpos
    · refine ⟨f.m_width * f.m_height * f.m_channels, ?_, ?_⟩
      · unfold serPlaneLen
        simp [henc]
      · rw [hd0]
        unfold newBlobBytes
        simp
    · obtain ⟨elems, obj, wi, hi', ci, h1, h2, h3, h4, h5, h6⟩ :=
        haf i hpos (List.mem_range.mp hi)
      refine ⟨wi * hi' * ci, ?_, ?_⟩
      · unfold serPlaneLen
        rw [if_neg (by omega)]
        simp only [h1, h2, h3, h4, h5]
      · rw [h6]
        unfold newBlobBytes
        simp
  obtain ⟨tr', htr'⟩ := serFreshLoop_wf f (List.range N) f.m_meta_data [] hwf
  set envF : MsgEnvelope :=
    (List.range N).foldl (fun e i => envPutBlob e (f.m_data.getD i []))
      f.m_meta_data with henvF
  have hkv : envF.kv = f.m_meta_data.kv := foldl_envPutBlob_kv _ _ _
  have hblobF : envF.blob = f.m_data.foldl slotPut none := by
    rw [henvF, foldl_envPutBlob_blob, hblob, ← hlen, map_getD_range]
  have hserialize : (f.serialize imenc []).env = some envF ∧
      (f.serialize imenc []).err = none := by
    unfold Frame.serialize
    simp only [hser, henc, bne_self_eq_false, Bool.false_eq_true, if_false,
               ite_false, hmsg, hN, Int.toNat_natCast, htr']
    refine ⟨?_, ?_⟩ <;> first | rfl | trivial
  have hwF : envGet envF "width" = some (.int f.m_width) := by
    rw [envGet_congr _ _ _ hkv]; exact hw
  have hhF : envGet envF "height" = some (.int f.m_height) := by
    rw [envGet_congr _ _ _ hkv]; exact hh
  have hcF : envGet envF "channels" = some (.int f.m_channels) := by
    rw [envGet_congr _ _ _ hkv]; exact hc
  have hnoencF : envGet envF "encoding_type" = none := by
    rw [envGet_congr _ _ _ hkv]; exact hnoenc
  have haccessors : ∀ (g : Frame), g.m_meta_data = envF →
      g.m_width = f.m_width → g.m_height = f.m_height →
      g.m_channels = f.m_channels →
      (∀ i : Nat, i < N →
        g.get_width i = f.get_width i ∧
        g.get_height i = f.get_height i ∧
        g.get_channels i = f.get_channels i) := by
    intro g hgm hgw hgh hgc i _
    by_cases hi0 : (i : Int) = 0
    · refine ⟨?_, ?_, ?_⟩
      · unfold Frame.get_width
        rw [if_pos hi0, if_pos hi0, hgw]
      · unfold Frame.get_height
        rw [if_pos hi0, if_pos hi0, hgh]
      · unfold Frame.get_channels
        rw [if_pos hi0, if_pos hi0, hgc]
    · refine ⟨?_, ?_, ?_⟩
      · unfold Frame.get_width
        rw [if_neg hi0, if_neg hi0, hgm,
            fetch_multi_frame_parameter_congr _ _ _ _ hkv]
      · unfold Frame.get_height
        rw [if_neg hi0, if_neg hi0, hgm,
            fetch_multi_frame_parameter_congr _ _ _ _ hkv]
      · unfold Frame.get_channels
        rw [if_neg hi0, if_neg hi0, hgm,
            fetch_multi_frame_parameter_congr _ _ _ _ hkv]
  obtain ⟨d, rest, hdata⟩ : ∃ d rest, f.m_data = d :: rest := by
    cases hd : f.m_data with
    | nil => rw [hd] at hlen; simp at hlen; omega
    | cons a b => exact ⟨a, b, rfl⟩
  cases rest with
  | nil =>
    -- single plane
    have hN1 : N = 1 := by rw [hdata] at hlen; simpa using hlen.symm
    have hslot : envF.blob = some (.single d) := by
      rw [hblobF, hdata]; rfl
    have hfe := from_envelope_unencoded envF imdec (.single d) f.m_width
      f.m_height f.m_channels hslot hwF hhF hcF hnoencF
    refine ⟨envF, _, [], hserialize.1, hserialize.2, hfe, ?_, ?_, ?_⟩
    · simp [hN1]
    · simp [hdata]
    · exact haccessors _ rfl rfl rfl rfl
  | cons d2 rest' =>
    -- several planes
    have hslot : envF.blob = some (.many (d :: d2 :: rest')) := by
      rw [hblobF, hdata, foldl_slotPut_none]
    have hfe := from_envelope_unencoded envF imdec (.many (d :: d2 :: rest'))
      f.m_width f.m_height f.m_channels hslot hwF hhF hcF hnoencF
    refine ⟨envF, _, [], hserialize.1, hserialize.2, hfe, ?_, ?_, ?_⟩
    · rw [hdata] at hlen
      simp only [← hlen]
    · simp [hdata]
    · exact haccessors _ rfl rfl rfl rfl

/-- Witness for C2 at the concrete two-plane frame: serialize then
deserialize preserves the plane count, the accessors and the pixel bytes. -/
theorem C2_roundtrip_unencoded_witness :
    ∃ env g al',
      (frameTwo.serialize noEnc []).env = some env ∧
      (frameTwo.serialize noEnc []).err = none ∧
      Frame.from_envelope env mockDec [] = .ok (g, al') ∧
      g.m_num_frames = ((2 : Nat) : Int) ∧
      g.m_data = frameTwo.m_data ∧
      (∀ i : Nat, i < 2 →
        g.get_width i = frameTwo.get_width i ∧
        g.get_height i = frameTwo.get_height i ∧
        g.get_channels i = frameTwo.get_channels i) :=
  C2_roundtrip_unencoded frameTwo 2 noEnc mockDec rfl rfl rfl rfl rfl
    (by omega) rfl rfl rfl rfl rfl (by decide)
    (fun i h1 h2 => by
      have hi : i = 1 := by omega
      subst hi
      exact ⟨[.obj [("width", .int 14), ("height", .int 1),
                    ("channels", .int 1)]],
             [("width", .int 14), ("height", .int 1), ("channels", .int 1)],
             14, 1, 1, rfl, rfl, rfl, rfl, rfl, by decide⟩)

/-! ### C9: a NONE plane stops encode_frame -/

/-- The multi-frame fetch depends only on the `additional_frames` binding. -/
theorem fetch_congr_af (env env' : MsgEnvelope) (i : Int) (k : String)
    (h : envGet env' "additional_frames" = envGet env "additional_frames") :
    fetch_multi_frame_parameter env' i k =
      fetch_multi_frame_parameter env i k := by
  unfold fetch_multi_frame_parameter
  rw [h]

/-- Rewriting every pair under key `k` makes a bound `k` resolve to the new
value. -/
theorem find?_replaceKey {α : Type} (l : List (String × α)) (k : String)
    (e : α) (h : (l.find? (fun p => p.1 == k)).isSome = true) :
    ((l.map (fun p => if p.1 == k then (p.1, e) else p)).find?
        (fun p => p.1 == k)).map Prod.snd = some e := by
  induction l with
  | nil => simp at h
  | cons x xs ih =>
    by_cases hx : (x.1 == k) = true
    · have hxp : x.1 = k := by simpa using hx
      simp [List.map_cons, List.find?_cons, hxp]
    · have hx' : (x.1 == k) = false := by simpa using hx
      rw [List.find?_cons] at h
      simp only [hx', Bool.false_eq_true, if_false] at h
      simp only [List.map_cons, List.find?_cons, hx', Bool.false_eq_true,
                 if_false]
      exact ih h

/-- Replacing the value under a bound key makes that key resolve to the new
value. -/
theorem envGet_kvSetKey_self (env : MsgEnvelope) (k : String) (e : EnvElem)
    (v : EnvElem) (h : envGet env k = some v) :
    envGet (kvSetKey env k e) k = some e := by
  unfold envGet kvSetKey
  apply find?_replaceKey
  unfold envGet at h
  rcases hf : env.kv.find? (fun p => p.1 == k) with _ | w
  · rw [hf] at h; simp at h
  · rw [hf]; rfl

/-- The checked blob put never touches the key-value list. -/
theorem envPutBlobChecked_kv (env : MsgEnvelope) (b : List Nat) (al : Alloc) :
    ((envPutBlobChecked env b al).2.1).kv = env.kv := by
  unfold envPutBlobChecked
  repeat' ((try simp only []); split)
  all_goals rfl

/-- A keyed put (successful or not) leaves other keys' lookups unchanged. -/
theorem envPut_envGet_ne (env : MsgEnvelope) (k : String) (e : EnvElem)
    (al : Alloc) (k' : String) (h : k' ≠ k) :
    envGet ((envPut env k e al).2.1) k' = envGet env k' := by
  unfold envPut
  rcases allocStep al with ⟨ok, al'⟩
  simp only []
  split
  · exact envGet_appendOne_ne env k e k' h
  · rfl

/-- The release stage only swaps the releaser and the blob slot: the frame
comes back with the same fields otherwise and an unchanged key-value
list. -/
theorem setDataRelease_spec (f : Frame) (fr : FramePtr) (w h c : Int)
    (d : List Nat) (ff : Option FreeFn) (idx : Int) (al : Alloc) :
    ∃ (ffn : Option FreeFn) (env' : MsgEnvelope),
      (setDataRelease f fr w h c d ff idx al).frame =
        { f with m_free_frame := ffn, m_meta_data := env' } ∧
      env'.kv = f.m_meta_data.kv := by
  unfold setDataRelease
  repeat' ((try simp only []); split)
  all_goals
    first
    | exact ⟨ff, f.m_meta_data, rfl, rfl⟩
    | exact ⟨f.m_free_frame, f.m_meta_data, rfl, rfl⟩
    | (refine ⟨f.m_free_frame, _, rfl, ?_⟩; rw [envPutBlobChecked_kv])

/-- The root-descriptor stage rewrites only the root width/height/channels
fields and envelope keys; the `additional_frames` binding survives. -/
theorem setDataRootDesc_spec (f : Frame) (w h c : Int) (al : Alloc) :
    ∃ env' : MsgEnvelope,
      (setDataRootDesc f w h c al).frame =
        { f with m_width := w, m_height := h, m_channels := c,
                 m_meta_data := env' } ∧
      envGet env' "additional_frames" =
        envGet f.m_meta_data "additional_frames" := by
  unfold setDataRootDesc
  repeat' ((try simp only []); split)
  all_goals refine ⟨_, rfl, ?_⟩
  all_goals simp [envPut_envGet_ne, envGet_envRemove_ne]

/-- A successful array read implies the index was not negative. -/
theorem arrayGetAt_some_nonneg (l : List EnvElem) (n : Int) (x : EnvElem)
    (h : arrayGetAt l n = some x) : 0 ≤ n := by
  unfold arrayGetAt at h
  by_cases hn : n < 0
  · rw [if_pos hn] at h; simp at h
  · omega

/-- The `additional_frames` stage touches only the object at position
`index-1`: reads of any other index through the fetch helper are
unchanged. -/
theorem setDataAfDesc_spec (f : Frame) (w h c : Int) (idx : Int) (al : Alloc)
    (i : Int) (hi : i ≠ idx) (k : String) :
    ∃ env' : MsgEnvelope,
      (setDataAfDesc f w h c idx al).frame = { f with m_meta_data := env' } ∧
      fetch_multi_frame_parameter env' i k =
        fetch_multi_frame_parameter f.m_meta_data i k := by
  unfold setDataAfDesc
  rcases henvaf : envGet f.m_meta_data "additional_frames" with _ | afe
  · simp only [henvaf]
    exact ⟨f.m_meta_data, rfl, rfl⟩
  · simp only [henvaf]
    rcases afe with iv | sv | elems | kvs0
    · exact ⟨f.m_meta_data, rfl, rfl⟩
    · exact ⟨f.m_meta_data, rfl, rfl⟩
    · rcases harr : arrayGetAt elems (idx - 1) with _ | o
      · simp only [harr]
        exact ⟨f.m_meta_data, rfl, rfl⟩
      · have hidx1 : 0 ≤ idx - 1 := arrayGetAt_some_nonneg _ _ _ harr
        have key : ∀ (kvsX : List (String × EnvElem)),
            fetch_multi_frame_parameter
              (kvSetKey f.m_meta_data "additional_frames"
                (.arr (elems.set (idx - 1).toNat (.obj kvsX)))) i k =
            fetch_multi_frame_parameter f.m_meta_data i k := by
          intro kvsX
          have harr2 : arrayGetAt (elems.set (idx - 1).toNat (.obj kvsX))
              (i - 1) = arrayGetAt elems (i - 1) := by
            unfold arrayGetAt
            by_cases hn : i - 1 < 0
            · rw [if_pos hn, if_pos hn]
            · rw [if_neg hn, if_neg hn]
              exact List.get?_set_ne _ _ (by omega)
          unfold fetch_multi_frame_parameter
          simp only [envGet_kvSetKey_self _ _ _ _ henvaf, henvaf, harr2]
        rcases o with iv | sv | elems2 | kvs
        · simp only [harr]
          exact ⟨f.m_meta_data, rfl, rfl⟩
        · simp only [harr]
          exact ⟨f.m_meta_data, rfl, rfl⟩
        · simp only [harr]
          exact ⟨f.m_meta_data, rfl, rfl⟩
        · simp only [harr]
          rcases h1 : objRemove kvs "width" with ⟨ok1, kvs1⟩
          simp only [h1]
          cases ok1
          · exact ⟨f.m_meta_data, rfl, rfl⟩
          · rcases h2 : objRemove kvs1 "height" with ⟨ok2, kvs2⟩
            simp only [h2]
            cases ok2
            · exact ⟨_, rfl, key _⟩
            · rcases h3 : objRemove kvs2 "channels" with ⟨ok3, kvs3⟩
              simp only [h3]
              cases ok3
              · exact ⟨_, rfl, key _⟩
              · rcases h4 : allocStep al with ⟨ok4, al4⟩
                simp only [h4]
                cases ok4
                · exact ⟨_, rfl, key _⟩
                · rcases h5 : objPut kvs3 "width" (.int w) al4 with ⟨ok5, kvs5, al5⟩
                  simp only [h5]
                  cases ok5
                  · exact ⟨_, rfl, key _⟩
                  · rcases h6 : allocStep al5 with ⟨ok6, al6⟩
                    simp only [h6]
                    cases ok6
                    · exact ⟨_, rfl, key _⟩
                    · rcases h7 : objPut kvs5 "height" (.int h) al6 with
                        ⟨ok7, kvs7, al7⟩
                      simp only [h7]
                      cases ok7
                      · exact ⟨_, rfl, key _⟩
                      · rcases h8 : allocStep al7 with ⟨ok8, al8⟩
                        simp only [h8]
                        cases ok8
                        · exact ⟨_, rfl, key _⟩
                        · rcases h9 : objPut kvs7 "channels" (.int c) al8 with
                            ⟨ok9, kvs9, al9⟩
                          simp only [h9]
                          cases ok9
                          · exact ⟨_, rfl, key _⟩
                          · exact ⟨_, rfl, key _⟩
    · exact ⟨f.m_meta_data, rfl, rfl⟩

/-- `get_encode_type` depends only on the encode-type field and the
key-value list. -/
theorem get_encode_type_kv_congr (g f : Frame) (i : Int)
    (henc : g.m_encode_type = f.m_encode_type)
    (hkv : g.m_meta_data.kv = f.m_meta_data.kv) :
    g.get_encode_type i = f.get_encode_type i := by
  unfold Frame.get_encode_type
  by_cases h0 : i = 0
  · rw [if_pos h0, if_pos h0, henc]
  · rw [if_neg h0, if_neg h0, fetch_multi_frame_parameter_congr _ _ _ _ hkv]

/-- `get_encode_type` depends only on the encode-type field and the value of
the encoding-type fetch. -/
theorem get_encode_type_fetch_congr (g f : Frame) (i : Int)
    (henc : g.m_encode_type = f.m_encode_type)
    (hf : fetch_multi_frame_parameter g.m_meta_data i "encoding_type" =
          fetch_multi_frame_parameter f.m_meta_data i "encoding_type") :
    g.get_encode_type i = f.get_encode_type i := by
  unfold Frame.get_encode_type
  by_cases h0 : i = 0
  · rw [if_pos h0, if_pos h0, henc]
  · rw [if_neg h0, if_neg h0, hf]

set_option maxHeartbeats 1600000 in
/-- `set_data` at `idx` — whether it succeeds or throws at any point —
never changes the frame's encode type or plane count, the pixel buffer of
any other index, or the encode-type read of any other index. -/
theorem set_data_preserves_other (f : Frame) (fr : FramePtr) (w h c : Int)
    (d : List Nat) (ff : Option FreeFn) (idx : Int) (al : Alloc)
    (j : Nat) (i : Int) (hj : (j : Int) ≠ idx) (hi : i ≠ idx) :
    (f.set_data fr w h c d ff idx al).frame.m_encode_type = f.m_encode_type ∧
    (f.set_data fr w h c d ff idx al).frame.m_num_frames = f.m_num_frames ∧
    (f.set_data fr w h c d ff idx al).frame.m_data.get? j = f.m_data.get? j ∧
    (f.set_data fr w h c d ff idx al).frame.get_encode_type i =
      f.get_encode_type i := by
  unfold Frame.set_data
  by_cases hser : f.m_serialized = true
  · rw [if_pos hser]
    exact ⟨rfl, rfl, rfl, rfl⟩
  · rw [if_neg hser]
    obtain ⟨ffn, env1, hfr, hkv1⟩ := setDataRelease_spec f fr w h c d ff idx al
    rcases hrel : setDataRelease f fr w h c d ff idx al with ⟨f1, al1, err⟩
    rw [hrel] at hfr
    simp only [] at hfr
    subst hfr
    simp only [hrel]
    have hd : (if idx < 0 then f.m_data else f.m_data.set idx.toNat d).get? j
        = f.m_data.get? j := by
      by_cases hneg : idx < 0
      · rw [if_pos hneg]
      · rw [if_neg hneg]
        exact List.get?_set_ne _ _ (by omega)
    rcases err with _ | e
    · rcases hs1 : allocStep al1 with ⟨ok1, al2⟩
      simp only [hs1]
      cases ok1
      · exact ⟨rfl, rfl, hd, get_encode_type_kv_congr _ _ i rfl hkv1⟩
      · rcases hs2 : allocStep al2 with ⟨ok2, al3⟩
        simp only [hs2]
        cases ok2
        · exact ⟨rfl, rfl, hd, get_encode_type_kv_congr _ _ i rfl hkv1⟩
        · rcases hs3 : allocStep al3 with ⟨ok3, al4⟩
          simp only [hs3]
          cases ok3
          · exact ⟨rfl, rfl, hd, get_encode_type_kv_congr _ _ i rfl hkv1⟩
          · by_cases hidx0 : idx = 0
            · rw [if_pos hidx0]
              obtain ⟨env2, hfr2, hafeq⟩ := setDataRootDesc_spec
                { f with m_free_frame := ffn, m_meta_data := env1,
                         m_frame := fr,
                         m_data := if idx < 0 then f.m_data
                                   else f.m_data.set idx.toNat d }
                w h c al4
              rcases hroot : setDataRootDesc
                  { f with m_free_frame := ffn, m_meta_data := env1,
                           m_frame := fr,
                           m_data := if idx < 0 then f.m_data
                                     else f.m_data.set idx.toNat d }
                  w h c al4 with ⟨f3, al5, err3⟩
              rw [hroot] at hfr2
              simp only [] at hfr2
              subst hfr2
              simp only [Bool.not_true, Bool.false_eq_true, if_false]
              refine ⟨trivial, trivial, hd, ?_⟩
              exact get_encode_type_fetch_congr _ f i rfl
                ((fetch_congr_af _ _ i "encoding_type" hafeq).trans
                  (fetch_multi_frame_parameter_congr _ _ i "encoding_type" hkv1))
            · rw [if_neg hidx0]
              obtain ⟨env2, hfr2, hfetch⟩ := setDataAfDesc_spec
                { f with m_free_frame := ffn, m_meta_data := env1,
                         m_frame := fr,
                         m_data := if idx < 0 then f.m_data
                                   else f.m_data.set idx.toNat d }
                w h c idx al4 i hi "encoding_type"
              rcases haf : setDataAfDesc
                  { f with m_free_frame := ffn, m_meta_data := env1,
                           m_frame := fr,
                           m_data := if idx < 0 then f.m_data
                                     else f.m_data.set idx.toNat d }
                  w h c idx al4 with ⟨f3, al5, err3⟩
              rw [haf] at hfr2
              simp only [] at hfr2
              subst hfr2
              simp only [Bool.not_true, Bool.false_eq_true, if_false]
              refine ⟨trivial, trivial, hd, ?_⟩
              exact get_encode_type_fetch_congr _ f i rfl
                (hfetch.trans
                  (fetch_multi_frame_parameter_congr _ _ i "encoding_type" hkv1))
    · exact ⟨rfl, rfl, rfl, get_encode_type_kv_congr _ _ i rfl hkv1⟩

set_option maxHeartbeats 1600000 in
/-- Running the encoding loop over the index range `[a, a+n)` with `a ≤ i`
leaves the pixel bytes and the encode-type read of every plane `j ≥ i`
unchanged whenever plane `i` reads encode type `NONE`: the loop either stops
at `i` (or earlier) or only touches planes below `i`. -/
theorem encodeLoop_none_preserves (imenc : Imencode) :
    ∀ (n a : Nat) (f : Frame) (al : Alloc) (i j : Nat),
      a ≤ i → i ≤ j →
      f.get_encode_type (i : Int) = .ok .NONE →
      (encodeLoop imenc f (List.range' a n) al).frame.m_data.get? j
          = f.m_data.get? j ∧
      (encodeLoop imenc f (List.range' a n) al).frame.get_encode_type (j : Int)
          = f.get_encode_type (j : Int) := by
  intro n
  induction n with
  | zero => intro a f al i j _ _ _; exact ⟨by trivial, by trivial⟩
  | succ n ih =>
    intro a f al i j hai hij hnone
    have hr : List.range' a (n + 1) = a :: List.range' (a + 1) n := rfl
    rw [hr]
    simp only [encodeLoop]
    by_cases ha0 : a = 0
    · subst ha0
      rw [if_pos rfl]
      by_cases hi0 : i = 0
      · subst hi0
        have henc : f.m_encode_type = .NONE := by
          unfold Frame.get_encode_type at hnone
          simp at hnone
          exact hnone
        simp only [henc]
        exact ⟨by trivial, by trivial⟩
      · cases henc : f.m_encode_type with
        | NONE => simp only [henc]; exact ⟨by trivial, by trivial⟩
        | JPEG =>
          simp only [henc]
          rcases himenc : imenc .JPEG f.m_encode_level f.m_height f.m_width
              f.m_channels (f.m_data.getD 0 []) with _ | enc
          · simp only [himenc]; exact ⟨by trivial, by trivial⟩
          · simp only [himenc]
            have hpj := set_data_preserves_other f (FramePtr.vecPtr enc)
              f.m_width f.m_height f.m_channels enc
              (if f.m_num_frames > 1 then none else some FreeFn.free_encoded)
              0 al j ↑j (by omega) (by omega)
            have hpi := set_data_preserves_other f (FramePtr.vecPtr enc)
              f.m_width f.m_height f.m_channels enc
              (if f.m_num_frames > 1 then none else some FreeFn.free_encoded)
              0 al j ↑i (by omega) (by omega)
            rcases herr : (f.set_data (FramePtr.vecPtr enc) f.m_width
                f.m_height f.m_channels enc
                (if f.m_num_frames > 1 then none else some FreeFn.free_encoded)
                0 al).err with _ | e
            · simp only [herr]
              exact ⟨(ih (0 + 1) _ _ i j (by omega) hij
                        (hpi.2.2.2.trans hnone)).1.trans hpj.2.2.1,
                     (ih (0 + 1) _ _ i j (by omega) hij
                        (hpi.2.2.2.trans hnone)).2.trans hpj.2.2.2⟩
            · simp only [herr]
              exact ⟨hpj.2.2.1, hpj.2.2.2⟩
        | PNG =>
          simp only [henc]
          rcases himenc : imenc .PNG f.m_encode_level f.m_height f.m_width
              f.m_channels (f.m_data.getD 0 []) with _ | enc
          · simp only [himenc]; exact ⟨by trivial, by trivial⟩
          · simp only [himenc]
            have hpj := set_data_preserves_other f (FramePtr.vecPtr enc)
              f.m_width f.m_height f.m_channels enc
              (if f.m_num_frames > 1 then none else some FreeFn.free_encoded)
              0 al j ↑j (by omega) (by omega)
            have hpi := set_data_preserves_other f (FramePtr.vecPtr enc)
              f.m_width f.m_height f.m_channels enc
              (if f.m_num_frames > 1 then none else some FreeFn.free_encoded)
              0 al j ↑i (by omega) (by omega)
            rcases herr : (f.set_data (FramePtr.vecPtr enc) f.m_width
                f.m_height f.m_channels enc
                (if f.m_num_frames > 1 then none else some FreeFn.free_encoded)
                0 al).err with _ | e
            · simp only [herr]
              exact ⟨(ih (0 + 1) _ _ i j (by omega) hij
                        (hpi.2.2.2.trans hnone)).1.trans hpj.2.2.1,
                     (ih (0 + 1) _ _ i j (by omega) hij
                        (hpi.2.2.2.trans hnone)).2.trans hpj.2.2.2⟩
            · simp only [herr]
              exact ⟨hpj.2.2.1, hpj.2.2.2⟩
    · rw [if_neg ha0]
      by_cases hae : a = i
      · subst hae
        simp only [hnone]
        exact ⟨by trivial, by trivial⟩
      · have hal : a < i := by omega
        rcases hget : f.get_encode_type ↑a with e | t
        · simp only [hget]; exact ⟨by trivial, by trivial⟩
        · cases t with
          | NONE => simp only [hget]; exact ⟨by trivial, by trivial⟩
          | JPEG =>
            simp only [hget]
            rcases hlvl : f.get_encode_level ↑a with e | lvl
            · simp only [hlvl]; exact ⟨by trivial, by trivial⟩
            · simp only [hlvl]
              rcases himenc : imenc .JPEG lvl f.m_height f.m_width
                  f.m_channels (f.m_data.getD a []) with _ | enc
              · simp only [himenc]; exact ⟨by trivial, by trivial⟩
              · simp only [himenc]
                have hpj := set_data_preserves_other f (FramePtr.vecPtr enc)
                  f.m_width f.m_height f.m_channels enc
                  (if (a : Int) = f.m_num_frames - 1
                   then some FreeFn.free_encoded else none)
                  ↑a al j ↑j (by omega) (by omega)
                have hpi := set_data_preserves_other f (FramePtr.vecPtr enc)
                  f.m_width f.m_height f.m_channels enc
                  (if (a : Int) = f.m_num_frames - 1
                   then some FreeFn.free_encoded else none)
                  ↑a al j ↑i (by omega) (by omega)
                rcases herr : (f.set_data (FramePtr.vecPtr enc) f.m_width
                    f.m_height f.m_channels enc
                    (if (a : Int) = f.m_num_frames - 1
                     then some FreeFn.free_encoded else none)
                    ↑a al).err with _ | e
                · simp only [herr]
                  exact ⟨(ih (a + 1) _ _ i j (by omega) hij
                            (hpi.2.2.2.trans hnone)).1.trans hpj.2.2.1,
                         (ih (a + 1) _ _ i j (by omega) hij
                            (hpi.2.2.2.trans hnone)).2.trans hpj.2.2.2⟩
                · simp only [herr]
                  exact ⟨hpj.2.2.1, hpj.2.2.2⟩
          | PNG =>
            simp only [hget]
            rcases hlvl : f.get_encode_level ↑a with e | lvl
            · simp only [hlvl]; exact ⟨by trivial, by trivial⟩
            · simp only [hlvl]
              rcases himenc : imenc .PNG lvl f.m_height f.m_width
                  f.m_channels (f.m_data.getD a []) with _ | enc
              · simp only [himenc]; exact ⟨by trivial, by trivial⟩
              · simp only [himenc]
                have hpj := set_data_preserves_other f (FramePtr.vecPtr enc)
                  f.m_width f.m_height f.m_channels enc
                  (if (a : Int) = f.m_num_frames - 1
                   then some FreeFn.free_encoded else none)
                  ↑a al j ↑j (by omega) (by omega)
                have hpi := set_data_preserves_other f (FramePtr.vecPtr enc)
                  f.m_width f.m_height f.m_channels enc
                  (if (a : Int) = f.m_num_frames - 1
                   then some FreeFn.free_encoded else none)
                  ↑a al j ↑i (by omega) (by omega)
                rcases herr : (f.set_data (FramePtr.vecPtr enc) f.m_width
                    f.m_height f.m_channels enc
                    (if (a : Int) = f.m_num_frames - 1
                     then some FreeFn.free_encoded else none)
                    ↑a al).err with _ | e
                · simp only [herr]
                  exact ⟨(ih (a + 1) _ _ i j (by omega) hij
                            (hpi.2.2.2.trans hnone)).1.trans hpj.2.2.1,
                         (ih (a + 1) _ _ i j (by omega) hij
                            (hpi.2.2.2.trans hnone)).2.trans hpj.2.2.2⟩
                · simp only [herr]
                  exact ⟨hpj.2.2.1, hpj.2.2.2⟩

/-- A two-plane frame whose primary plane has no encoding but whose second
plane's `additional_frames` descriptor declares JPEG encoding. -/
def frameC9 : Frame :=
  { m_frame := .user 1, m_free_frame := some (.user 1),
    m_data := [helloBytes, helloBytes2],
    m_meta_data :=
      { kv := [("width", .int 14), ("height", .int 1), ("channels", .int 1),
               ("additional_frames",
                .arr [.obj [("width", .int 14), ("height", .int 1),
                            ("channels", .int 1),
                            ("encoding_type", .str "jpeg"),
                            ("encoding_level", .int 50)]])],
        blob := none },
    m_msg_present := false, m_width := 14, m_height := 1, m_channels := 1,
    m_num_frames := 2, m_serialized := false, m_encode_type := .NONE,
    m_encode_level := 0 }

/-- C9: in `encode_frame`, encountering any plane whose encode type is None
makes the function return immediately, so when plane `i` reads encode type
`NONE`, no plane `j ≥ i` is encoded: its pixel bytes and its encode-type
read are exactly those of the input frame — even if a plane after `i` has a
JPEG or PNG encode type set, and whatever the codec and allocation outcomes
are. -/
theorem C9_encode_none_stops_later_planes (f : Frame) (imenc : Imencode)
    (al : Alloc) (i j : Nat) (hij : i ≤ j)
    (hnone : f.get_encode_type (i : Int) = .ok .NONE) :
    (f.encode_frame imenc al).frame.m_data.get? j = f.m_data.get? j ∧
    (f.encode_frame imenc al).frame.get_encode_type (j : Int)
      = f.get_encode_type (j : Int) := by
  unfold Frame.encode_frame
  rw [List.range_eq_range']
  exact encodeLoop_none_preserves imenc f.m_num_frames.toNat 0 f al i j
    (Nat.zero_le i) hij hnone

/-- C9 witness: `frameC9` reads `NONE` for plane 0 while its plane 1
declares JPEG; `encode_frame` leaves plane 1's bytes and encode-type read
untouched. -/
theorem C9_encode_none_stops_later_planes_witness :
    frameC9.get_encode_type 0 = .ok .NONE ∧
    frameC9.get_encode_type 1 = .ok .JPEG ∧
    (frameC9.encode_frame mockEnc []).frame.m_data.get? 1
        = frameC9.m_data.get? 1 ∧
    (frameC9.encode_frame mockEnc []).frame.get_encode_type 1
        = frameC9.get_encode_type 1 :=
  ⟨rfl, rfl,
   (C9_encode_none_stops_later_planes frameC9 mockEnc [] 0 1
      (by decide) rfl).1,
   (C9_encode_none_stops_later_planes frameC9 mockEnc [] 0 1
      (by decide) rfl).2⟩

end VideoCommon
